/-
  Verification of the kv-calculator control-valve sizing engine.

  This file gives a shallow embedding, over the real numbers, of the
  calculation core of the TypeScript repository (IEC 60534 valve sizing):
  the liquid/gas/steam flow-coefficient calculators, the Reynolds
  correction, the valve-opening solver, the unit converter, the
  orchestrating `KvCalculator.calculate`, and the two noise models
  (IEC 60534-8-3 gas noise, IEC 60534-8-4 liquid noise).

  Conventions of the embedding:
  * JavaScript numbers are modelled as `ℝ`.  Division by zero yields `0` in
    Lean (where JavaScript produces `Infinity`/`NaN`); theorems that depend
    on such quantities carry hypotheses ruling the degenerate inputs out,
    so that the embedding and the JavaScript semantics agree on the domain
    of every theorem.
  * `Math.pow` with a non-integer exponent is `Real.rpow`; integer
    exponents written literally in the source are monoid powers.
  * An explicit `return NaN` in the source is modelled as `Option.none`.
  * A JavaScript truthiness test on a number (`if (x)`, `a || b`) is
    modelled as a comparison with `0`; `undefined` is `Option.none`.
  * String enumerations of the source become inductive types; `usedFormula`
    strings are kept verbatim.
  * The `warnings` arrays of the two noise models interpolate formatted
    numbers into strings (`toFixed`); they are not representable over `ℝ`
    and no claim concerns them, so they are omitted from the noise result
    records.  The `errors`/`warnings` lists of `KvCalculator.calculate`
    are kept (the source returns `undefined` for an empty list; we keep
    the plain, possibly empty, list).
-/
import Mathlib

open scoped Classical

noncomputable section

/-- Base-10 logarithm, `Math.log10`. -/
def log10 (x : ℝ) : ℝ := Real.logb 10 x

/-- JavaScript `Math.round` (half-up, ties toward +∞), as a real number. -/
def jsRound (x : ℝ) : ℝ := ((round x : ℤ) : ℝ)

/-- JavaScript `a || b` for an optional number `a`: `b` when `a` is
`undefined` or `0` (falsy), else the value of `a`. -/
def jsOr (a : Option ℝ) (b : ℝ) : ℝ := if a.getD 0 = 0 then b else a.getD 0

/-- JavaScript `a || b` for a required number `a`. -/
def jsOrR (a b : ℝ) : ℝ := if a = 0 then b else a

/- Numerical constants of the Kv system, `src/constants/index.ts`
(`CONSTANTS`). -/
namespace CONSTANTS

def N1 : ℝ := 0.1

def N2 : ℝ := 0.0016

def N4 : ℝ := 0.0707

def N5 : ℝ := 0.0018

def N6 : ℝ := 3.16

def N9 : ℝ := 24.6

def N14 : ℝ := 0.0049

def N18 : ℝ := 17.3

def ANTOINE_A : ℝ := 7.07406

def ANTOINE_B : ℝ := 1657.46

def ANTOINE_C : ℝ := 227.02

def WATER_DENSITY : ℝ := 1000

def STD_PRESSURE : ℝ := 101.325

def STD_TEMP : ℝ := 273.15

def WATER_CRITICAL_PRESSURE : ℝ := 22.12

def KV_TO_CV : ℝ := 1.156

def DEFAULT_Z : ℝ := 1

def DEFAULT_GAMMA : ℝ := 1.4

def DEFAULT_VISCOSITY : ℝ := 1

def DEFAULT_FD : ℝ := 0.42

def TURBULENT_RE : ℝ := 10000

end CONSTANTS

/- Noise constants, `src/calculators/noise/constants.ts`
(`NOISE_CONSTANTS`). -/
namespace NOISE_CONSTANTS

def RHO_0 : ℝ := 1.293

def C0 : ℝ := 343

def STEEL_DENSITY : ℝ := 7800

def STAINLESS_DENSITY : ℝ := 8000

def WATER_SOUND_SPEED : ℝ := 1480

def R : ℝ := 8314

def ETA_REF_GAS : ℝ := 1e-4

def A_ETA_TURB : ℝ := -4.6

def A_WEIGHTING_A1 : ℝ := -145.528

def A_WEIGHTING_A2 : ℝ := 98.262

def A_WEIGHTING_A3 : ℝ := -19.509

def A_WEIGHTING_A4 : ℝ := 0.975

def RW_STANDARD : ℝ := 0.25

def RW_CAGE : ℝ := 0.20

def RW_MULTISTAGE : ℝ := 0.15

def N34 : ℝ := 1

def INTERNAL_NOISE_COEF : ℝ := 3.2e9

def TL_COEF_GAS : ℝ := 7.6e-7

def N14 : ℝ := 0.0049

def CP_PIPE : ℝ := 5000

def FP_GAS_COEF : ℝ := 0.2

def ETA_MAX : ℝ := 0.01

def MVC_MIN : ℝ := 0.01

def MAX_NOISE : ℝ := 150

def MIN_NOISE : ℝ := 30

end NOISE_CONSTANTS

/-- Pipe material enumeration of the noise module. -/
inductive PipeMaterial
  | steel
  | stainless
deriving DecidableEq

/-- Pipe material density, `getPipeMaterialDensity`. -/
def getPipeMaterialDensity (material : PipeMaterial) : ℝ :=
  if material = PipeMaterial.stainless then NOISE_CONSTANTS.STAINLESS_DENSITY
  else NOISE_CONSTANTS.STEEL_DENSITY

/-- A-weighting correction, `calculateAWeighting` in
`src/calculators/noise/constants.ts`: cubic polynomial in `log10 fp`,
zero for a non-positive frequency. -/
def calculateAWeighting (fp : ℝ) : ℝ :=
  if fp ≤ 0 then 0
  else
    NOISE_CONSTANTS.A_WEIGHTING_A1 + NOISE_CONSTANTS.A_WEIGHTING_A2 * log10 fp +
      NOISE_CONSTANTS.A_WEIGHTING_A3 * (log10 fp) ^ (2:ℕ) +
      NOISE_CONSTANTS.A_WEIGHTING_A4 * (log10 fp) ^ (3:ℕ)

/-- Flow state enumeration (`'Choked' | 'Non-choked'`). -/
inductive FlowState
  | Choked
  | NonChoked
deriving DecidableEq

/-- Liquid fluid state (`'No Cavitation' | 'Incipient Cavitation' |
'Cavitation' | 'Flashing'`). -/
inductive FluidState
  | NoCavitation
  | IncipientCavitation
  | Cavitation
  | Flashing
deriving DecidableEq

/-- Turbulence state (`'Turbulent' | 'Laminar'`). -/
inductive TurbulenceState
  | Turbulent
  | Laminar
deriving DecidableEq

/-- Flow characteristic curves. -/
inductive FlowCharacteristic
  | EqualPercentage
  | Linear
  | QuickOpening
deriving DecidableEq

/-! ## Liquid Kv module, `src/calculators/liquid.ts` -/

/-- Critical pressure ratio factor, `calcFF`: `0.96 - 0.28·√(Pv/(Pc·1000))`. -/
def calcFF (Pv Pc : ℝ) : ℝ := 0.96 - 0.28 * Real.sqrt (Pv / (Pc * 1000))

/-- Inlet contraction coefficient, `calcK1`. -/
def calcK1 (d D1 : ℝ) : ℝ := 0.5 * (1 - (d / D1) ^ (2:ℕ)) ^ (2:ℕ)

/-- Outlet expansion coefficient, `calcK2`. -/
def calcK2 (d D2 : ℝ) : ℝ := 1.0 * (1 - (d / D2) ^ (2:ℕ)) ^ (2:ℕ)

/-- Bernoulli coefficient, `calcKB1`. -/
def calcKB1 (d D1 : ℝ) : ℝ := 1 - (d / D1) ^ (4:ℕ)

/-- Bernoulli coefficient, `calcKB2`. -/
def calcKB2 (d D2 : ℝ) : ℝ := 1 - (d / D2) ^ (4:ℕ)

/-- Sum of fitting resistance coefficients, `calcSumK`: forced to `0` when
the seat diameter matches both pipe inner diameters within 0.1 mm. -/
def calcSumK (d D1 D2 : ℝ) : ℝ :=
  if |d - D1| < 0.1 ∧ |d - D2| < 0.1 then 0
  else calcK1 d D1 + calcK2 d D2 + calcKB1 d D1 - calcKB2 d D2

/-- Piping geometry factor, `calcFP`: `1/√(1 + ΣK/N2·(Ci/d²)²)`. -/
def calcFP (sumK Ci d : ℝ) : ℝ :=
  1 / Real.sqrt (1 + sumK / CONSTANTS.N2 * (Ci / (d * d)) ^ (2:ℕ))

/-- Combined liquid pressure recovery factor, `calcFLP`. -/
def calcFLP (FL sumK Ci d : ℝ) : ℝ :=
  FL / Real.sqrt (1 + FL * FL / CONSTANTS.N2 * sumK * (Ci / (d * d)) ^ (2:ℕ))

/-- Liquid flow state without fittings, `determineFlowStateNoFitting`. -/
def determineFlowStateNoFitting (deltaP FL P1 FF Pv : ℝ) : FlowState :=
  if deltaP < FL * FL * (P1 - FF * Pv) then FlowState.NonChoked else FlowState.Choked

/-- Liquid flow state with fittings, `determineFlowStateWithFitting`. -/
def determineFlowStateWithFitting (deltaP FLP FP P1 FF Pv : ℝ) : FlowState :=
  if deltaP < (FLP / FP) * (FLP / FP) * (P1 - FF * Pv) then FlowState.NonChoked
  else FlowState.Choked

/-- Cavitation/flashing classification, `determineFluidState`. -/
def determineFluidState (xF xFz FL2 : ℝ) : FluidState :=
  if xF ≤ xFz then FluidState.NoCavitation
  else if xF > xFz ∧ xF ≤ FL2 then FluidState.IncipientCavitation
  else if xF > FL2 ∧ xF ≤ 1 then FluidState.Cavitation
  else FluidState.Flashing

/-- Pressure differential ratio, `calcXF`. -/
def calcXF (P1 P2 Pv : ℝ) : ℝ := (P1 - P2) / (P1 - Pv)

/-- Incipient cavitation ratio, `calcXFz` (local constant `N34 = 1`). -/
def calcXFz (Fd C FL : ℝ) : ℝ :=
  0.9 / Real.sqrt (1 + 3 * Fd * Real.sqrt (C / (1 * FL)))

/-- Liquid formula C1: non-choked, no fittings. -/
def calcC1 (Q relativeDensity deltaP : ℝ) : ℝ :=
  Q / CONSTANTS.N1 * Real.sqrt (relativeDensity / deltaP)

/-- Liquid formula C2: non-choked, with fittings. -/
def calcC2 (Q FP relativeDensity deltaP : ℝ) : ℝ :=
  Q / (CONSTANTS.N1 * FP) * Real.sqrt (relativeDensity / deltaP)

/-- Liquid formula C3: choked, no fittings. -/
def calcC3 (Q FL relativeDensity P1 FF Pv : ℝ) : ℝ :=
  Q / (CONSTANTS.N1 * FL) * Real.sqrt (relativeDensity / (P1 - FF * Pv))

/-- Liquid formula C4: choked, with fittings. -/
def calcC4 (Q FLP relativeDensity P1 FF Pv : ℝ) : ℝ :=
  Q / (CONSTANTS.N1 * FLP) * Real.sqrt (relativeDensity / (P1 - FF * Pv))

/-- Liquid formula C5: non-turbulent correction. -/
def calcC5 (Q FR relativeDensity deltaP : ℝ) : ℝ :=
  Q / (CONSTANTS.N1 * FR) * Real.sqrt (relativeDensity / deltaP)

/-- Parameters of `calculateLiquidKv`.  The optional source field `FR`
defaults to `1`; the orchestrator always passes its computed value. -/
structure LiquidKvParams where
  Q : ℝ
  P1 : ℝ
  P2 : ℝ
  density : ℝ
  Pv : ℝ
  Pc : ℝ
  FL : ℝ
  d : ℝ
  D1 : ℝ
  D2 : ℝ
  Fd : ℝ
  ratedKv : ℝ
  FR : ℝ

/-- Intermediate record of `calculateLiquidKv`. -/
structure LiquidKvIntermediate where
  deltaP : ℝ
  relativeDensity : ℝ
  FF : ℝ
  xF : ℝ
  xFz : ℝ
  sumK : ℝ
  FP : ℝ
  FLP : ℝ
  C1 : ℝ
  C2 : ℝ
  C3 : ℝ
  C4 : ℝ
  C5 : Option ℝ

/-- Result record of `calculateLiquidKv`. -/
structure LiquidKvResult where
  kv : ℝ
  flowState : FlowState
  fluidState : FluidState
  hasFittings : Prop
  usedFormula : String
  intermediate : LiquidKvIntermediate

/-- Liquid Kv comprehensive calculation, `calculateLiquidKv`.
The source guard `if (FR < 1 && C5)` tests JavaScript truthiness of the
`C5` candidate (present and nonzero); it is modelled as
`FR < 1 ∧ calcC5 … ≠ 0`. -/
def calculateLiquidKv (p : LiquidKvParams) : LiquidKvResult :=
  let deltaP := p.P1 - p.P2
  let relativeDensity := p.density / CONSTANTS.WATER_DENSITY
  let FF := calcFF p.Pv p.Pc
  let sumK := calcSumK p.d p.D1 p.D2
  let Ci := p.ratedKv * 1.3
  let FP := calcFP sumK Ci p.d
  let FLP := calcFLP p.FL sumK Ci p.d
  let flowStateNoFitting := determineFlowStateNoFitting deltaP p.FL p.P1 FF p.Pv
  let flowStateWithFitting := determineFlowStateWithFitting deltaP FLP FP p.P1 FF p.Pv
  let hasFittings := p.d ≠ p.D1 ∨ p.d ≠ p.D2
  let C1 := calcC1 p.Q relativeDensity deltaP
  let C2 := calcC2 p.Q FP relativeDensity deltaP
  let C3 := calcC3 p.Q p.FL relativeDensity p.P1 FF p.Pv
  let C4 := calcC4 p.Q FLP relativeDensity p.P1 FF p.Pv
  let C5 : Option ℝ :=
    if p.FR < 1 then some (calcC5 p.Q p.FR relativeDensity deltaP) else none
  let xF := calcXF p.P1 p.P2 p.Pv
  let xFz := calcXFz p.Fd C1 p.FL
  let fluidState := determineFluidState xF xFz (p.FL * p.FL)
  let sel : ℝ × String × FlowState :=
    if p.FR < 1 ∧ calcC5 p.Q p.FR relativeDensity deltaP ≠ 0 then
      (calcC5 p.Q p.FR relativeDensity deltaP, "C5", flowStateNoFitting)
    else if ¬hasFittings then
      (if flowStateNoFitting = FlowState.NonChoked then (C1, "C1", flowStateNoFitting)
       else (C3, "C3", flowStateNoFitting))
    else
      (if flowStateWithFitting = FlowState.NonChoked then (C2, "C2", flowStateWithFitting)
       else (C4, "C4", flowStateWithFitting))
  { kv := sel.1
    flowState := sel.2.2
    fluidState := fluidState
    hasFittings := hasFittings
    usedFormula := sel.2.1
    intermediate :=
      { deltaP := deltaP, relativeDensity := relativeDensity, FF := FF, xF := xF,
        xFz := xFz, sumK := sumK, FP := FP, FLP := FLP,
        C1 := C1, C2 := C2, C3 := C3, C4 := C4, C5 := C5 } }

/-! ## Gas Kv module, `src/calculators/gas.ts` -/

/-- Specific heat ratio factor, `calcFgamma`. -/
def calcFgamma (gamma : ℝ) : ℝ := gamma / 1.4

/-- Pressure differential ratio, `calcX`. -/
def calcX (deltaP P1 : ℝ) : ℝ := deltaP / P1

/-- Fitting-corrected critical pressure differential ratio, `calcXTP`:
`xT / FP² / (1 + xT·(K1+KB1)/N5·(C/d²)²)`. -/
def calcXTP (xT FP K1KB1 C d : ℝ) : ℝ :=
  xT / (FP * FP) / (1 + xT * K1KB1 / CONSTANTS.N5 * (C / (d * d)) ^ (2:ℕ))

/-- Expansion factor, `calcY`: `max (1 - x/(3·Fγ·xT)) 0.667`. -/
def calcY (x Fgamma xT : ℝ) : ℝ := max (1 - x / (3 * Fgamma * xT)) 0.667

/-- Gas flow state without fittings, `determineGasFlowState` in `gas.ts`. -/
def determineGasFlowState (x Fgamma xT : ℝ) : FlowState :=
  if x < Fgamma * xT then FlowState.NonChoked else FlowState.Choked

/-- Gas flow state with fittings, `determineGasFlowStateWithFitting`. -/
def determineGasFlowStateWithFitting (x Fgamma xTP : ℝ) : FlowState :=
  if x < Fgamma * xTP then FlowState.NonChoked else FlowState.Choked

/-- Gas Kv, non-choked without fittings, `calcGasKv`. -/
def calcGasKv (Qn P1 Y M Z T1 x : ℝ) : ℝ :=
  Qn / (CONSTANTS.N9 * P1 * Y) * Real.sqrt (M * Z * T1 / x)

/-- Gas Kv, non-choked with fittings, `calcGasKvWithFitting`. -/
def calcGasKvWithFitting (Qn P1 Y FP M Z T1 x : ℝ) : ℝ :=
  Qn / (CONSTANTS.N9 * FP * P1 * Y) * Real.sqrt (M * Z * T1 / x)

/-- Gas Kv, choked without fittings, `calcGasKvChoked`. -/
def calcGasKvChoked (Qn P1 M Z T1 xT Fgamma : ℝ) : ℝ :=
  Qn / (0.667 * CONSTANTS.N9 * P1) * Real.sqrt (M * Z * T1 / (xT * Fgamma))

/-- Gas Kv, choked with fittings, `calcGasKvChokedWithFitting`. -/
def calcGasKvChokedWithFitting (Qn P1 FP M Z T1 xTP Fgamma : ℝ) : ℝ :=
  Qn / (0.667 * CONSTANTS.N9 * FP * P1) * Real.sqrt (M * Z * T1 / (xTP * Fgamma))

/-- Gas Kv, laminar, `calcGasKvLaminar`. -/
def calcGasKvLaminar (Qn FR M T1 deltaP P1 P2 : ℝ) : ℝ :=
  Qn / (CONSTANTS.N18 * FR) * Real.sqrt (M * T1 / (deltaP * (P1 + P2)))

/-- Parameters of `calculateGasKv`; the optional `FR` defaults to `1` and
the orchestrator never supplies it for gas. -/
structure GasKvParams where
  Qn : ℝ
  P1 : ℝ
  P2 : ℝ
  T1 : ℝ
  M : ℝ
  Z : ℝ
  gamma : ℝ
  xT : ℝ
  d : ℝ
  D1 : ℝ
  D2 : ℝ
  ratedKv : ℝ
  FR : ℝ

/-- Intermediate record of `calculateGasKv`. -/
structure GasKvIntermediate where
  deltaP : ℝ
  x : ℝ
  Fgamma : ℝ
  Y : ℝ
  xTP : ℝ
  sumK : ℝ
  FP : ℝ
  kvNoFitting : ℝ
  kvWithFitting : ℝ
  kvChokedNoFitting : ℝ
  kvChokedWithFitting : ℝ
  kvLaminar : Option ℝ

/-- Result record of `calculateGasKv`. -/
structure GasKvResult where
  kv : ℝ
  flowState : FlowState
  hasFittings : Prop
  usedFormula : String
  intermediate : GasKvIntermediate

/-- Pass-1 (no-fitting) gas flow state of `calculateGasKv`:
`flowStateNoFitting` in the source. -/
def gasPass1State (p : GasKvParams) : FlowState :=
  determineGasFlowState (calcX (p.P1 - p.P2) p.P1) (calcFgamma p.gamma) p.xT

/-- Pass-1 (no-fitting) gas Kv of `calculateGasKv`: the source's `CforFP`,
the pass-1 coefficient selected by the pass-1 regime
(`flowStateNoFitting === 'Choked' ? kvChokedNoFitting : kvNoFitting`). -/
def gasPass1Kv (p : GasKvParams) : ℝ :=
  if gasPass1State p = FlowState.Choked then
    calcGasKvChoked p.Qn p.P1 p.M p.Z p.T1 p.xT (calcFgamma p.gamma)
  else
    calcGasKv p.Qn p.P1 (calcY (calcX (p.P1 - p.P2) p.P1) (calcFgamma p.gamma) p.xT)
      p.M p.Z p.T1 (calcX (p.P1 - p.P2) p.P1)

/-- Gas Kv comprehensive calculation, `calculateGasKv` (two-pass version:
pass 2 seeds `FP`/`xTP` from the pass-1 Kv `CforFP` and recomputes the
expansion factor from `xTP`).  The guard `if (FR < 1 && kvLaminar)` is the
JavaScript truthiness of the laminar candidate. -/
def calculateGasKv (p : GasKvParams) : GasKvResult :=
  let deltaP := p.P1 - p.P2
  let x := calcX deltaP p.P1
  let Fgamma := calcFgamma p.gamma
  let hasFittings := p.d ≠ p.D1 ∨ p.d ≠ p.D2
  let sumK := calcSumK p.d p.D1 p.D2
  let Y := calcY x Fgamma p.xT
  let flowStateNoFitting := determineGasFlowState x Fgamma p.xT
  let kvNoFitting := calcGasKv p.Qn p.P1 Y p.M p.Z p.T1 x
  let kvChokedNoFitting := calcGasKvChoked p.Qn p.P1 p.M p.Z p.T1 p.xT Fgamma
  let CforFP := if flowStateNoFitting = FlowState.Choked then kvChokedNoFitting else kvNoFitting
  let FP := calcFP sumK CforFP p.d
  let K1 := 0.5 * (1 - (p.d / p.D1) ^ (2:ℕ)) ^ (2:ℕ)
  let KB1 := 1 - (p.d / p.D1) ^ (4:ℕ)
  let K1KB1 := K1 + KB1
  let xTP := calcXTP p.xT FP K1KB1 CforFP p.d
  let Yfitting := calcY x Fgamma xTP
  let flowStateWithFitting := determineGasFlowStateWithFitting x Fgamma xTP
  let kvWithFitting := calcGasKvWithFitting p.Qn p.P1 Yfitting FP p.M p.Z p.T1 x
  let kvChokedWithFitting := calcGasKvChokedWithFitting p.Qn p.P1 FP p.M p.Z p.T1 xTP Fgamma
  let kvLaminar : Option ℝ :=
    if p.FR < 1 then some (calcGasKvLaminar p.Qn p.FR p.M p.T1 deltaP p.P1 p.P2) else none
  let sel : ℝ × String × FlowState :=
    if p.FR < 1 ∧ calcGasKvLaminar p.Qn p.FR p.M p.T1 deltaP p.P1 p.P2 ≠ 0 then
      (calcGasKvLaminar p.Qn p.FR p.M p.T1 deltaP p.P1 p.P2, "Gas laminar flow",
        flowStateNoFitting)
    else if ¬hasFittings then
      (if flowStateNoFitting = FlowState.NonChoked then
        (kvNoFitting, "Gas non-choked flow without fittings", flowStateNoFitting)
       else
        (kvChokedNoFitting, "Gas choked flow without fittings", flowStateNoFitting))
    else
      (if flowStateWithFitting = FlowState.NonChoked then
        (kvWithFitting, "Gas non-choked flow with fittings", flowStateWithFitting)
       else
        (kvChokedWithFitting, "Gas choked flow with fittings", flowStateWithFitting))
  { kv := sel.1
    flowState := sel.2.2
    hasFittings := hasFittings
    usedFormula := sel.2.1
    intermediate :=
      { deltaP := deltaP, x := x, Fgamma := Fgamma,
        Y := if hasFittings then Yfitting else Y,
        xTP := xTP, sumK := sumK, FP := FP,
        kvNoFitting := kvNoFitting, kvWithFitting := kvWithFitting,
        kvChokedNoFitting := kvChokedNoFitting,
        kvChokedWithFitting := kvChokedWithFitting, kvLaminar := kvLaminar } }

/-! ## Steam Kv module, `src/calculators/steam.ts` -/

/-- Steam Kv, non-choked without fittings, `calcSteamKv`. -/
def calcSteamKv (W Y x P1 rho1 : ℝ) : ℝ :=
  W / (CONSTANTS.N6 * Y * Real.sqrt (x * P1 * rho1))

/-- Steam Kv, non-choked with fittings, `calcSteamKvWithFitting`. -/
def calcSteamKvWithFitting (W FP Y x P1 rho1 : ℝ) : ℝ :=
  W / (CONSTANTS.N6 * FP * Y * Real.sqrt (x * P1 * rho1))

/-- Steam Kv, choked without fittings, `calcSteamKvChoked`. -/
def calcSteamKvChoked (W Fgamma xT P1 rho1 : ℝ) : ℝ :=
  W / (0.667 * CONSTANTS.N6 * Real.sqrt (Fgamma * xT * P1 * rho1))

/-- Steam Kv, choked with fittings, `calcSteamKvChokedWithFitting`. -/
def calcSteamKvChokedWithFitting (W FP Fgamma xTP P1 rho1 : ℝ) : ℝ :=
  W / (0.667 * FP * CONSTANTS.N6 * Real.sqrt (Fgamma * xTP * P1 * rho1))

/-- Steam Kv, laminar, `calcSteamKvLaminar` (water vapor `M = 18.0152`). -/
def calcSteamKvLaminar (W FR T1 deltaP P1 P2 : ℝ) : ℝ :=
  W / (CONSTANTS.N18 * FR) * Real.sqrt (T1 / (deltaP * (P1 + P2) * 18.0152))

/-- Parameters of `calculateSteamKv`; `FR` defaults to `1` and the
orchestrator never supplies it for steam. -/
structure SteamKvParams where
  W : ℝ
  P1 : ℝ
  P2 : ℝ
  T1 : ℝ
  rho1 : ℝ
  gamma : ℝ
  xT : ℝ
  d : ℝ
  D1 : ℝ
  D2 : ℝ
  ratedKv : ℝ
  FR : ℝ

/-- Intermediate record of `calculateSteamKv`. -/
structure SteamKvIntermediate where
  deltaP : ℝ
  x : ℝ
  Fgamma : ℝ
  Y : ℝ
  xTP : ℝ
  sumK : ℝ
  FP : ℝ
  kvNoFitting : ℝ
  kvWithFitting : ℝ
  kvChokedNoFitting : ℝ
  kvChokedWithFitting : ℝ
  kvLaminar : Option ℝ

/-- Result record of `calculateSteamKv`. -/
structure SteamKvResult where
  kv : ℝ
  flowState : FlowState
  hasFittings : Prop
  usedFormula : String
  intermediate : SteamKvIntermediate

/-- Pass-1 (no-fitting) steam flow state of `calculateSteamKv`. -/
def steamPass1State (p : SteamKvParams) : FlowState :=
  determineGasFlowState (calcX (p.P1 - p.P2) p.P1) (calcFgamma p.gamma) p.xT

/-- Pass-1 (no-fitting) steam Kv of `calculateSteamKv`: the no-fitting
coefficient selected by the pass-1 regime, in analogy to the gas path's
`CforFP`. -/
def steamPass1Kv (p : SteamKvParams) : ℝ :=
  if steamPass1State p = FlowState.Choked then
    calcSteamKvChoked p.W (calcFgamma p.gamma) p.xT p.P1 p.rho1
  else
    calcSteamKv p.W (calcY (calcX (p.P1 - p.P2) p.P1) (calcFgamma p.gamma) p.xT)
      (calcX (p.P1 - p.P2) p.P1) p.P1 p.rho1

/-- Steam Kv comprehensive calculation, `calculateSteamKv`.  In contrast
to `calculateGasKv`, `FP` and `xTP` use the fixed assumed coefficient
`Ci = ratedKv * 1.3`, and the with-fitting non-choked formula reuses the
pass-1 expansion factor `Y`. -/
def calculateSteamKv (p : SteamKvParams) : SteamKvResult :=
  let deltaP := p.P1 - p.P2
  let x := calcX deltaP p.P1
  let Fgamma := calcFgamma p.gamma
  let Y := calcY x Fgamma p.xT
  let sumK := calcSumK p.d p.D1 p.D2
  let Ci := p.ratedKv * 1.3
  let FP := calcFP sumK Ci p.d
  let K1 := 0.5 * (1 - (p.d / p.D1) ^ (2:ℕ)) ^ (2:ℕ)
  let KB1 := 1 - (p.d / p.D1) ^ (4:ℕ)
  let K1KB1 := K1 + KB1
  let xTP := calcXTP p.xT FP K1KB1 Ci p.d
  let hasFittings := p.d ≠ p.D1 ∨ p.d ≠ p.D2
  let flowStateNoFitting := determineGasFlowState x Fgamma p.xT
  let flowStateWithFitting := determineGasFlowStateWithFitting x Fgamma xTP
  let kvNoFitting := calcSteamKv p.W Y x p.P1 p.rho1
  let kvWithFitting := calcSteamKvWithFitting p.W FP Y x p.P1 p.rho1
  let kvChokedNoFitting := calcSteamKvChoked p.W Fgamma p.xT p.P1 p.rho1
  let kvChokedWithFitting := calcSteamKvChokedWithFitting p.W FP Fgamma xTP p.P1 p.rho1
  let kvLaminar : Option ℝ :=
    if p.FR < 1 then some (calcSteamKvLaminar p.W p.FR p.T1 deltaP p.P1 p.P2) else none
  let sel : ℝ × String × FlowState :=
    if p.FR < 1 ∧ calcSteamKvLaminar p.W p.FR p.T1 deltaP p.P1 p.P2 ≠ 0 then
      (calcSteamKvLaminar p.W p.FR p.T1 deltaP p.P1 p.P2, "Steam laminar flow",
        flowStateNoFitting)
    else if ¬hasFittings then
      (if flowStateNoFitting = FlowState.NonChoked then
        (kvNoFitting, "Steam non-choked flow without fittings", flowStateNoFitting)
       else
        (kvChokedNoFitting, "Steam choked flow without fittings", flowStateNoFitting))
    else
      (if flowStateWithFitting = FlowState.NonChoked then
        (kvWithFitting, "Steam non-choked flow with fittings", flowStateWithFitting)
       else
        (kvChokedWithFitting, "Steam choked flow with fittings", flowStateWithFitting))
  { kv := sel.1
    flowState := sel.2.2
    hasFittings := hasFittings
    usedFormula := sel.2.1
    intermediate :=
      { deltaP := deltaP, x := x, Fgamma := Fgamma, Y := Y,
        xTP := xTP, sumK := sumK, FP := FP,
        kvNoFitting := kvNoFitting, kvWithFitting := kvWithFitting,
        kvChokedNoFitting := kvChokedNoFitting,
        kvChokedWithFitting := kvChokedWithFitting, kvLaminar := kvLaminar } }

/-! ## Reynolds number module, `src/calculators/reynolds.ts` -/

/-- Valve Reynolds number, `calcReynoldsNumber`:
`N4·Fd·Q/(ν·√(C·FL)) · (FL²·C²/(N2·D⁴)+1)^0.25`. -/
def calcReynoldsNumber (Fd Q nu C FL D : ℝ) : ℝ :=
  CONSTANTS.N4 * Fd * Q / (nu * Real.sqrt (C * FL)) *
    (FL * FL * C * C / (CONSTANTS.N2 * D ^ (4:ℕ)) + 1) ^ (0.25 : ℝ)

/-- Geometry coefficient, `calcLambda`: `N2/(C/d²)²`. -/
def calcLambda (C d : ℝ) : ℝ := CONSTANTS.N2 / (C / (d * d)) ^ (2:ℕ)

/-- Geometry coefficient with fittings, `calcLambda2`:
`1 + ΣK·(C/d²)^(2/3)`. -/
def calcLambda2 (sumK C d : ℝ) : ℝ := 1 + sumK * (C / (d * d)) ^ ((2:ℝ) / 3)

/-- Reynolds correction factor, `calcFR1`. -/
def calcFR1 (FL lambda Rev : ℝ) : ℝ :=
  1 + 0.33 * FL ^ (0.5 : ℝ) / lambda ^ (0.25 : ℝ) * log10 (Rev / 10000)

/-- Reynolds correction factor, `calcFR2`: `0.026/FL·√(λ·Rev)`. -/
def calcFR2 (FL lambda Rev : ℝ) : ℝ := 0.026 / FL * Real.sqrt (lambda * Rev)

/-- Parameters of `calculateReynolds`. -/
structure ReynoldsParams where
  Q : ℝ
  nu : ℝ
  C : ℝ
  FL : ℝ
  Fd : ℝ
  d : ℝ
  D : ℝ
  sumK : Option ℝ

/-- Result record of `calculateReynolds`. -/
structure ReynoldsResult where
  Rev : ℝ
  FR : ℝ
  turbulenceState : TurbulenceState
  lambda : ℝ
  lambda2 : Option ℝ
  FR1 : Option ℝ
  FR2 : ℝ

/-- Reynolds comprehensive calculation, `calculateReynolds`: the effective
λ is `λ2` when `sumK` is supplied and positive; turbulent flow
(`Rev ≥ 10000`) takes `FR = min(FR1, FR2, 1)`, otherwise `FR = FR2`. -/
def calculateReynolds (p : ReynoldsParams) : ReynoldsResult :=
  let Rev := calcReynoldsNumber p.Fd p.Q p.nu p.C p.FL p.D
  let lambda := calcLambda p.C p.d
  let lambda2 : Option ℝ := p.sumK.map (fun s => calcLambda2 s p.C p.d)
  let effectiveLambda :=
    match p.sumK with
    | some s => if 0 < s then calcLambda2 s p.C p.d else lambda
    | none => lambda
  let FR2 := calcFR2 p.FL effectiveLambda Rev
  let turbulenceState :=
    if Rev ≥ CONSTANTS.TURBULENT_RE then TurbulenceState.Turbulent else TurbulenceState.Laminar
  if Rev ≥ CONSTANTS.TURBULENT_RE then
    { Rev := Rev, FR := min (min (calcFR1 p.FL effectiveLambda Rev) FR2) 1,
      turbulenceState := turbulenceState, lambda := lambda, lambda2 := lambda2,
      FR1 := some (calcFR1 p.FL effectiveLambda Rev), FR2 := FR2 }
  else
    { Rev := Rev, FR := FR2, turbulenceState := turbulenceState, lambda := lambda,
      lambda2 := lambda2, FR1 := none, FR2 := FR2 }

/-! ## Valve opening module, `src/calculators/valve-opening.ts`
An explicit `return NaN` of the source is `none`. -/

/-- Equal-percentage opening, `calcEqualPercentageOpening`. -/
def calcEqualPercentageOpening (m R : ℝ) : Option ℝ :=
  if m ≤ 0 ∨ R ≤ 1 then none
  else some ((1 - log10 m / log10 R) * 100)

/-- Linear opening, `calcLinearOpening`. -/
def calcLinearOpening (m R : ℝ) : Option ℝ :=
  if m ≤ 0 ∨ R ≤ 1 then none
  else some ((R - m) / ((R - 1) * m) * 100)

/-- Quick-opening opening, `calcQuickOpeningOpening`. -/
def calcQuickOpeningOpening (m R : ℝ) : Option ℝ :=
  if m ≤ 1 ∨ R ≤ 1 then none
  else if R * (m - 1) / ((R - 1) * m) < 0 then none
  else some ((1 - Real.sqrt (R * (m - 1) / ((R - 1) * m))) * 100)

/-- Opening dispatch, `calcValveOpening`: `m = ratedKv / calculatedKv`. -/
def calcValveOpening (calculatedKv ratedKv rangeability : ℝ)
    (flowChar : FlowCharacteristic) : Option ℝ :=
  match flowChar with
  | FlowCharacteristic.EqualPercentage =>
      calcEqualPercentageOpening (ratedKv / calculatedKv) rangeability
  | FlowCharacteristic.Linear =>
      calcLinearOpening (ratedKv / calculatedKv) rangeability
  | FlowCharacteristic.QuickOpening =>
      calcQuickOpeningOpening (ratedKv / calculatedKv) rangeability

/-- Result of `validateOpening`. -/
structure OpeningValidation where
  valid : Bool
  warning : Option String

/-- Opening validation, `validateOpening`: a `NaN` opening (`none`) is
invalid with a warning; out-of-range openings are invalid; openings
outside 10–90 % only warn. -/
def validateOpening (opening : Option ℝ) : OpeningValidation :=
  match opening with
  | none => ⟨false, some "开度计算结果无效"⟩
  | some o =>
    if o < 0 then ⟨false, some "开度小于0%，阀门选型过大"⟩
    else if o > 100 then ⟨false, some "开度超过100%，阀门选型过小"⟩
    else if o < 10 then ⟨true, some "开度小于10%，建议选择更小口径阀门"⟩
    else if o > 90 then ⟨true, some "开度大于90%，建议选择更大口径阀门"⟩
    else ⟨true, none⟩

/-! ## Unit converter, `src/utils/unit-converter.ts` -/

/-- Pressure unit tags. -/
inductive PressureUnit
  | MPaG
  | MPaA
  | KPaG
  | KPaA
  | barG
  | barA
deriving DecidableEq

/-- Temperature unit tags. -/
inductive TemperatureUnit
  | Celsius
  | Kelvin
  | Fahrenheit
deriving DecidableEq

/-- Flow unit tags. -/
inductive FlowUnit
  | m3h
  | Kgh
  | Kgs
  | th
  | ts
  | Nm3h
deriving DecidableEq

/-- Density unit tags. -/
inductive DensityUnit
  | KgM3
  | gCm3
  | KgNm3
deriving DecidableEq

/-- Viscosity unit tags. -/
inductive ViscosityUnit
  | m2s
  | mm2s
  | St
  | cSt
  | cP
  | PaS
  | mPaS
deriving DecidableEq

/-- Viscosity kind tags. -/
inductive ViscosityType
  | Kinematic
  | Dynamic
  | Viscosity
deriving DecidableEq

/-- Fluid type tags recognized by the calculator (the two-phase tags of
the source raise immediately in the orchestrator's `default` arm and are
outside every claim's domain, so the embedding carries the three
recognized tags). -/
inductive FluidType
  | Liquid
  | Gas
  | Steam
deriving DecidableEq

/-- Pressure conversion to absolute kPa, `convertPressureToKPaAbs`:
gauge units add the fixed 100 kPa atmospheric offset. -/
def convertPressureToKPaAbs (value : ℝ) : PressureUnit → ℝ
  | PressureUnit.MPaG => value * 1000 + 100
  | PressureUnit.MPaA => value * 1000
  | PressureUnit.KPaG => value + 100
  | PressureUnit.KPaA => value
  | PressureUnit.barG => value * 100 + 100
  | PressureUnit.barA => value * 100

/-- Temperature conversion to Kelvin, `convertTemperatureToK`. -/
def convertTemperatureToK (value : ℝ) : TemperatureUnit → ℝ
  | TemperatureUnit.Celsius => value + CONSTANTS.STD_TEMP
  | TemperatureUnit.Kelvin => value
  | TemperatureUnit.Fahrenheit => (value - 32) / 1.8 + CONSTANTS.STD_TEMP

/-- Temperature conversion to Celsius, `convertTemperatureToCelsius`. -/
def convertTemperatureToCelsius (value : ℝ) : TemperatureUnit → ℝ
  | TemperatureUnit.Celsius => value
  | TemperatureUnit.Kelvin => value - CONSTANTS.STD_TEMP
  | TemperatureUnit.Fahrenheit => (value - 32) / 1.8

/-- Density conversion to kg/m³, `convertDensityToKgM3`. -/
def convertDensityToKgM3 (value : ℝ) : DensityUnit → ℝ
  | DensityUnit.KgM3 => value
  | DensityUnit.gCm3 => value * 1000
  | DensityUnit.KgNm3 => value

/-- Gas density from standard to actual state, `convertGasDensityToActual`:
uses the standard atmospheric pressure `STD_PRESSURE = 101.325` kPa. -/
def convertGasDensityToActual (rhoN P1 T1 : ℝ) : ℝ :=
  rhoN * P1 * CONSTANTS.STD_TEMP / (CONSTANTS.STD_PRESSURE * T1)

/-- Viscosity conversion to m²/s, `convertViscosityToM2S`; unit/kind
combinations that the source rejects with a thrown error are `none`. -/
def convertViscosityToM2S (value : ℝ) (unit : ViscosityUnit) (vtype : ViscosityType)
    (density : ℝ) : Option ℝ :=
  match vtype with
  | ViscosityType.Kinematic =>
    match unit with
    | ViscosityUnit.m2s => some value
    | ViscosityUnit.mm2s => some (value * 1e-6)
    | ViscosityUnit.cSt => some (value * 1e-6)
    | ViscosityUnit.St => some (value * 1e-4)
    | _ => none
  | _ =>
    match unit with
    | ViscosityUnit.PaS => some (value / density)
    | ViscosityUnit.mPaS => some (value / 1000 / density)
    | ViscosityUnit.cP => some (value / 1000 / density)
    | _ => none

/-- Liquid flow conversion to m³/h, `convertLiquidFlowToM3h`;
`Nm3/h` is rejected for liquids (`none`). -/
def convertLiquidFlowToM3h (value : ℝ) (unit : FlowUnit) (density : ℝ) : Option ℝ :=
  match unit with
  | FlowUnit.m3h => some value
  | FlowUnit.Kgh => some (value / density)
  | FlowUnit.Kgs => some (value / density * 3600)
  | FlowUnit.th => some (value * 1000 / density)
  | FlowUnit.ts => some (value * 1000 / density * 3600)
  | FlowUnit.Nm3h => none

/-- Gas flow conversion to Nm³/h, `convertGasFlowToNm3h`. -/
def convertGasFlowToNm3h (value : ℝ) (unit : FlowUnit) (rhoN P1 T1 : ℝ) : ℝ :=
  match unit with
  | FlowUnit.Nm3h => value
  | FlowUnit.Kgh => value / rhoN
  | FlowUnit.Kgs => value / rhoN * 3600
  | FlowUnit.th => value * 1000 / rhoN
  | FlowUnit.ts => value * 1000 / rhoN * 3600
  | FlowUnit.m3h => value * P1 * CONSTANTS.STD_TEMP / (CONSTANTS.STD_PRESSURE * T1)

/-- Steam flow conversion to kg/h, `convertSteamFlowToKgh`;
`Nm3/h` is rejected for steam (`none`). -/
def convertSteamFlowToKgh (value : ℝ) (unit : FlowUnit) (density : ℝ) : Option ℝ :=
  match unit with
  | FlowUnit.Kgh => some value
  | FlowUnit.Kgs => some (value * 3600)
  | FlowUnit.th => some (value * 1000)
  | FlowUnit.ts => some (value * 1000 * 3600)
  | FlowUnit.m3h => some (value * density)
  | FlowUnit.Nm3h => none

/-- Pipe inner diameter from outer diameter and wall thickness,
`calcInnerDiameter`. -/
def calcInnerDiameter (outerDiameter wallThickness : ℝ) : ℝ :=
  outerDiameter - wallThickness * 2

/-- Static pipe schedule table `PIPE_SPECS` (`src/constants/index.ts`),
keyed by nominal size: `(outer diameter, wall thickness)` in mm. -/
def getPipeSpec (dn : ℝ) : Option (ℝ × ℝ) :=
  if dn = 6 then some (10.3, 1.73)
  else if dn = 8 then some (13.7, 2.24)
  else if dn = 10 then some (17.2, 2.31)
  else if dn = 15 then some (21.3, 2.77)
  else if dn = 20 then some (26.9, 2.87)
  else if dn = 25 then some (33.7, 3.38)
  else if dn = 32 then some (42.4, 3.56)
  else if dn = 40 then some (48.3, 3.68)
  else if dn = 50 then some (60.3, 3.91)
  else if dn = 65 then some (76.1, 5.16)
  else if dn = 80 then some (88.9, 5.49)
  else if dn = 100 then some (114.3, 6.02)
  else if dn = 125 then some (139.7, 6.55)
  else if dn = 150 then some (168.3, 7.11)
  else if dn = 200 then some (219.1, 8.18)
  else if dn = 250 then some (273, 9.27)
  else if dn = 300 then some (323.9, 10.31)
  else if dn = 350 then some (355.6, 11.13)
  else if dn = 400 then some (406.4, 12.27)
  else if dn = 450 then some (457, 14.27)
  else if dn = 500 then some (508, 15.09)
  else if dn = 600 then some (610, 17.45)
  else none

/-- Pipe inner diameter resolution, `getPipeInnerDiameter`: explicit
dimensions (when both truthy) win, then the static table, then the
nominal size itself. -/
def getPipeInnerDiameter (dn : ℝ) (outerDiameter wallThickness : Option ℝ) : ℝ :=
  if outerDiameter.getD 0 ≠ 0 ∧ wallThickness.getD 0 ≠ 0 then
    calcInnerDiameter (outerDiameter.getD 0) (wallThickness.getD 0)
  else
    match getPipeSpec dn with
    | some spec => calcInnerDiameter spec.1 spec.2
    | none => dn

/-- Kv to Cv conversion, `kvToCv`. -/
def kvToCv (kv : ℝ) : ℝ := kv * CONSTANTS.KV_TO_CV

/-- Relative density, `calcRelativeDensity`. -/
def calcRelativeDensity (density : ℝ) : ℝ := density / CONSTANTS.WATER_DENSITY

/-- Saturation vapor pressure of water (Antoine equation),
`calcSaturationPressure`. -/
def calcSaturationPressure (tempCelsius : ℝ) : ℝ :=
  (10:ℝ) ^ (CONSTANTS.ANTOINE_A - CONSTANTS.ANTOINE_B / (CONSTANTS.ANTOINE_C + tempCelsius))

/-- Saturation temperature (inverse Antoine equation),
`calcSaturationTemperature`; `NaN` for a non-positive pressure is `none`. -/
def calcSaturationTemperature (pressureKPa : ℝ) : Option ℝ :=
  if pressureKPa ≤ 0 then none
  else some (CONSTANTS.ANTOINE_B / (CONSTANTS.ANTOINE_A - log10 pressureKPa) -
    CONSTANTS.ANTOINE_C)

/-- Outlet velocity, `calcVelocity`. -/
def calcVelocity (flowM3h diameterMm : ℝ) : ℝ :=
  flowM3h / 3600 / (Real.pi * (diameterMm / 1000) ^ (2:ℕ) / 4)

/-! ## Orchestrator, `src/kv-calculator.ts` (`KvCalculator.calculate`)

Every source `const` of the method body is hoisted into a definition of
the input (and of the branch-local flow value where one is needed); a
thrown error (unit/kind mismatch in a conversion) makes `calculate`
return `none`. -/

/-- Input record of `KvCalculator.calculate` (`KvInput`). -/
structure KvInput where
  fluidType : FluidType
  temperature : ℝ
  tempUnit : TemperatureUnit
  flowRate : ℝ
  flowUnit : FlowUnit
  P1 : ℝ
  P2 : ℝ
  pressureUnit : PressureUnit
  density : ℝ
  densityUnit : DensityUnit
  viscosity : Option ℝ
  viscosityUnit : Option ViscosityUnit
  viscosityType : Option ViscosityType
  molecularWeight : Option ℝ
  Z : Option ℝ
  gamma : Option ℝ
  Pc : Option ℝ
  DN : ℝ
  seatSize : Option ℝ
  FL : ℝ
  XT : Option ℝ
  Fd : Option ℝ
  flowChar : FlowCharacteristic
  rangeability : ℝ
  ratedKv : ℝ
  D1w : Option ℝ
  D1T : Option ℝ
  D2w : Option ℝ
  D2T : Option ℝ

/-- Intermediate values of the orchestrator (`IntermediateValues`). -/
structure KvIntermediate where
  P1Abs : ℝ
  P2Abs : ℝ
  deltaP : ℝ
  T1 : ℝ
  saturationTemp : Option ℝ
  densityKgM3 : ℝ
  relativeDensity : Option ℝ
  volumeFlowM3h : Option ℝ
  massFlowKgh : Option ℝ
  normalFlowNm3h : Option ℝ
  kinematicViscosity : ℝ
  Pv : Option ℝ
  FF : Option ℝ
  xF : Option ℝ
  x : Option ℝ
  Fgamma : Option ℝ
  Y : Option ℝ
  D1 : ℝ
  D2 : ℝ
  FP : ℝ
  FLP : ℝ
  sumK : ℝ
  Rev : ℝ
  FR : ℝ
  lambda : ℝ

/-- Result record of the orchestrator (`KvResult`). -/
structure KvResult where
  calculatedKv : ℝ
  calculatedCv : ℝ
  valveOpening : Option ℝ
  flowState : FlowState
  turbulenceState : TurbulenceState
  fluidState : Option FluidState
  outletVelocity : ℝ
  intermediate : KvIntermediate
  usedFormula : String
  hasFittings : Prop
  errors : List String
  warnings : List String

/-- `P1Abs` of the orchestrator. -/
def kcP1Abs (i : KvInput) : ℝ := convertPressureToKPaAbs i.P1 i.pressureUnit

/-- `P2Abs` of the orchestrator. -/
def kcP2Abs (i : KvInput) : ℝ := convertPressureToKPaAbs i.P2 i.pressureUnit

/-- `deltaP` of the orchestrator. -/
def kcDeltaP (i : KvInput) : ℝ := kcP1Abs i - kcP2Abs i

/-- `T1` of the orchestrator. -/
def kcT1 (i : KvInput) : ℝ := convertTemperatureToK i.temperature i.tempUnit

/-- `tempCelsius` of the orchestrator. -/
def kcTempCelsius (i : KvInput) : ℝ := convertTemperatureToCelsius i.temperature i.tempUnit

/-- `densityKgM3` of the orchestrator. -/
def kcDensityKgM3 (i : KvInput) : ℝ := convertDensityToKgM3 i.density i.densityUnit

/-- Valve diameter `d = input.seatSize || input.DN`. -/
def kcD (i : KvInput) : ℝ := jsOr i.seatSize i.DN

/-- `seatEqualsNominal = !input.seatSize || input.seatSize === input.DN`. -/
def kcSeatEqualsNominal (i : KvInput) : Prop :=
  i.seatSize.getD 0 = 0 ∨ i.seatSize.getD 0 = i.DN

/-- Upstream inner diameter `D1` of the orchestrator. -/
def kcD1 (i : KvInput) : ℝ :=
  if kcSeatEqualsNominal i then kcD i else getPipeInnerDiameter i.DN i.D1w i.D1T

/-- Downstream inner diameter `D2` of the orchestrator. -/
def kcD2 (i : KvInput) : ℝ :=
  if kcSeatEqualsNominal i then kcD i else getPipeInnerDiameter i.DN i.D2w i.D2T

/-- `hasFittings` of the orchestrator. -/
def kcHasFittings (i : KvInput) : Prop := kcD i ≠ kcD1 i ∨ kcD i ≠ kcD2 i

/-- Kinematic viscosity of the orchestrator: the input viscosity when
truthy (converted; `none` on a thrown unit/kind mismatch), else the
default 1 cP divided by the density. -/
def kcKinViscOpt (i : KvInput) : Option ℝ :=
  if i.viscosity.getD 0 ≠ 0 then
    convertViscosityToM2S (i.viscosity.getD 0) (i.viscosityUnit.getD ViscosityUnit.cP)
      (i.viscosityType.getD ViscosityType.Viscosity) (kcDensityKgM3 i)
  else some (CONSTANTS.DEFAULT_VISCOSITY / 1000 / kcDensityKgM3 i)

/-- Default-resolved `Fd` (`input.Fd ?? CONSTANTS.DEFAULT.FD`). -/
def kcFd (i : KvInput) : ℝ := i.Fd.getD CONSTANTS.DEFAULT_FD

/-- Default-resolved `Z`. -/
def kcZ (i : KvInput) : ℝ := i.Z.getD CONSTANTS.DEFAULT_Z

/-- Default-resolved `gamma`. -/
def kcGamma (i : KvInput) : ℝ := i.gamma.getD CONSTANTS.DEFAULT_GAMMA

/-- Default-resolved `Pc`. -/
def kcPc (i : KvInput) : ℝ := i.Pc.getD CONSTANTS.WATER_CRITICAL_PRESSURE

/-- `sumK` of the orchestrator. -/
def kcSumKv (i : KvInput) : ℝ := calcSumK (kcD i) (kcD1 i) (kcD2 i)

/-- Seed piping factor `FP` of the orchestrator (`Ci = ratedKv × 1.3`). -/
def kcFPSeed (i : KvInput) : ℝ := calcFP (kcSumKv i) (i.ratedKv * 1.3) (kcD i)

/-- Seed `FLP` of the orchestrator (`Ci = ratedKv × 1.3`). -/
def kcFLPSeed (i : KvInput) : ℝ := calcFLP i.FL (kcSumKv i) (i.ratedKv * 1.3) (kcD i)

/-- Pressure validation error list built at the top of `calculate`. -/
def kcBaseErrors (i : KvInput) : List String :=
  (if kcP1Abs i ≤ 0 then ["Inlet pressure must be greater than 0"] else []) ++
  (if kcP2Abs i < 0 then ["Outlet pressure cannot be negative"] else []) ++
  (if kcDeltaP i ≤ 0 then ["Inlet pressure must be greater than outlet pressure"] else [])

/-- Vapor pressure `Pv` of the liquid branch. -/
def kcPv (i : KvInput) : ℝ := calcSaturationPressure (kcTempCelsius i)

/-- Saturation temperature of the liquid branch. -/
def kcSatTemp (i : KvInput) : Option ℝ := calcSaturationTemperature (kcP1Abs i)

/-- Liquid-branch validation errors (temperature above saturation;
inlet pressure at or below vapor pressure), appended to the base list.
A `NaN` saturation temperature (`none`) makes the first comparison false,
as in JavaScript. -/
def kcLiquidErrors (i : KvInput) : List String :=
  (if (kcSatTemp i).elim False (fun st => kcTempCelsius i > st) then
    ["Medium temperature is above saturation temperature"] else []) ++
  (if kcP1Abs i ≤ kcPv i then ["Inlet pressure is below vapor pressure"] else [])

/-- Initial liquid Kv estimate `C_initial` for the Reynolds computation. -/
def kcCInitial (i : KvInput) (Q : ℝ) : ℝ :=
  Q / CONSTANTS.N1 * Real.sqrt (calcRelativeDensity (kcDensityKgM3 i) / kcDeltaP i)

/-- Reynolds result of the liquid branch. -/
def kcReynolds (i : KvInput) (nu Q : ℝ) : ReynoldsResult :=
  calculateReynolds
    { Q := Q, nu := nu, C := kcCInitial i Q, FL := i.FL, Fd := kcFd i,
      d := kcD i, D := kcD1 i, sumK := some (kcSumKv i) }

/-- Liquid Kv result of the liquid branch. -/
def kcLiquidKv (i : KvInput) (nu Q : ℝ) : LiquidKvResult :=
  calculateLiquidKv
    { Q := Q, P1 := kcP1Abs i, P2 := kcP2Abs i, density := kcDensityKgM3 i,
      Pv := kcPv i, Pc := kcPc i, FL := i.FL, d := kcD i, D1 := kcD1 i,
      D2 := kcD2 i, Fd := kcFd i, ratedKv := i.ratedKv, FR := (kcReynolds i nu Q).FR }

/-- Standard-state gas density `rhoN` of the gas branch. -/
def kcRhoN (i : KvInput) : ℝ :=
  if i.densityUnit = DensityUnit.KgNm3 then i.density
  else convertGasDensityToActual i.density CONSTANTS.STD_PRESSURE CONSTANTS.STD_TEMP

/-- Standard volume flow of the gas branch. -/
def kcNormalFlow (i : KvInput) : ℝ :=
  convertGasFlowToNm3h i.flowRate i.flowUnit (kcRhoN i) (kcP1Abs i) (kcT1 i)

/-- Molecular weight of the gas branch (`input.molecularWeight || rhoN·22.4`). -/
def kcM (i : KvInput) : ℝ := jsOr i.molecularWeight (kcRhoN i * 22.4)

/-- Gas Kv result of the gas branch (no `FR` is passed: it defaults to 1). -/
def kcGasKv (i : KvInput) : GasKvResult :=
  calculateGasKv
    { Qn := kcNormalFlow i, P1 := kcP1Abs i, P2 := kcP2Abs i, T1 := kcT1 i,
      M := kcM i, Z := kcZ i, gamma := kcGamma i, xT := jsOr i.XT 0.72,
      d := kcD i, D1 := kcD1 i, D2 := kcD2 i, ratedKv := i.ratedKv, FR := 1 }

/-- Steam Kv result of the steam branch (no `FR` is passed: it defaults
to 1). -/
def kcSteamKv (i : KvInput) (W : ℝ) : SteamKvResult :=
  calculateSteamKv
    { W := W, P1 := kcP1Abs i, P2 := kcP2Abs i, T1 := kcT1 i,
      rho1 := kcDensityKgM3 i, gamma := kcGamma i, xT := jsOr i.XT 0.72,
      d := kcD i, D1 := kcD1 i, D2 := kcD2 i, ratedKv := i.ratedKv, FR := 1 }

/-- Valve opening and its validation warning for a computed Kv. -/
def kcOpening (i : KvInput) (kv : ℝ) : Option ℝ :=
  calcValveOpening kv i.ratedKv i.rangeability i.flowChar

/-- Warning list contributed by the opening validation. -/
def kcWarnings (i : KvInput) (kv : ℝ) : List String :=
  match (validateOpening (kcOpening i kv)).warning with
  | some w => [w]
  | none => []

/-- Result assembled by the liquid branch of `KvCalculator.calculate`
(`nu` the resolved kinematic viscosity, `Q` the converted volume flow). -/
def kcLiquidResult (i : KvInput) (nu Q : ℝ) : KvResult :=
  let rey := kcReynolds i nu Q
  let liquidResult := kcLiquidKv i nu Q
  { calculatedKv := liquidResult.kv
    calculatedCv := kvToCv liquidResult.kv
    valveOpening := kcOpening i liquidResult.kv
    flowState := liquidResult.flowState
    turbulenceState := rey.turbulenceState
    fluidState := some liquidResult.fluidState
    outletVelocity := if Q ≠ 0 then calcVelocity Q (kcD i) else 0
    intermediate :=
      { P1Abs := kcP1Abs i, P2Abs := kcP2Abs i, deltaP := kcDeltaP i,
        T1 := kcT1 i, saturationTemp := kcSatTemp i,
        densityKgM3 := kcDensityKgM3 i,
        relativeDensity := some (calcRelativeDensity (kcDensityKgM3 i)),
        volumeFlowM3h := some Q,
        massFlowKgh := some (Q * kcDensityKgM3 i),
        normalFlowNm3h := none, kinematicViscosity := nu,
        Pv := some (kcPv i), FF := some (calcFF (kcPv i) (kcPc i)),
        xF := some liquidResult.intermediate.xF, x := none,
        Fgamma := none, Y := none, D1 := kcD1 i, D2 := kcD2 i,
        FP := liquidResult.intermediate.FP,
        FLP := liquidResult.intermediate.FLP,
        sumK := kcSumKv i, Rev := rey.Rev, FR := rey.FR,
        lambda := rey.lambda }
    usedFormula := liquidResult.usedFormula
    hasFittings := kcHasFittings i
    errors := kcBaseErrors i ++ kcLiquidErrors i
    warnings := kcWarnings i liquidResult.kv }

/-- Result assembled by the gas branch of `KvCalculator.calculate`. -/
def kcGasResult (i : KvInput) (nu : ℝ) : KvResult :=
  let gasResult := kcGasKv i
  { calculatedKv := gasResult.kv
    calculatedCv := kvToCv gasResult.kv
    valveOpening := kcOpening i gasResult.kv
    flowState := gasResult.flowState
    turbulenceState := TurbulenceState.Turbulent
    fluidState := none
    outletVelocity :=
      if kcNormalFlow i ≠ 0 then
        calcVelocity
          (kcNormalFlow i * CONSTANTS.STD_PRESSURE * kcT1 i /
            (kcP2Abs i * CONSTANTS.STD_TEMP)) (kcD i)
      else 0
    intermediate :=
      { P1Abs := kcP1Abs i, P2Abs := kcP2Abs i, deltaP := kcDeltaP i,
        T1 := kcT1 i, saturationTemp := none,
        densityKgM3 := kcDensityKgM3 i, relativeDensity := none,
        volumeFlowM3h := none, massFlowKgh := none,
        normalFlowNm3h := some (kcNormalFlow i), kinematicViscosity := nu,
        Pv := none, FF := none, xF := none,
        x := some gasResult.intermediate.x,
        Fgamma := some gasResult.intermediate.Fgamma,
        Y := some gasResult.intermediate.Y, D1 := kcD1 i, D2 := kcD2 i,
        FP := gasResult.intermediate.FP, FLP := kcFLPSeed i,
        sumK := kcSumKv i, Rev := 0, FR := 1, lambda := 0 }
    usedFormula := gasResult.usedFormula
    hasFittings := kcHasFittings i
    errors := kcBaseErrors i
    warnings := kcWarnings i gasResult.kv }

/-- Result assembled by the steam branch of `KvCalculator.calculate`
(`W` the converted mass flow). -/
def kcSteamResult (i : KvInput) (nu W : ℝ) : KvResult :=
  let steamResult := kcSteamKv i W
  { calculatedKv := steamResult.kv
    calculatedCv := kvToCv steamResult.kv
    valveOpening := kcOpening i steamResult.kv
    flowState := steamResult.flowState
    turbulenceState := TurbulenceState.Turbulent
    fluidState := none
    outletVelocity :=
      if W ≠ 0 then calcVelocity (W / kcDensityKgM3 i) (kcD i) else 0
    intermediate :=
      { P1Abs := kcP1Abs i, P2Abs := kcP2Abs i, deltaP := kcDeltaP i,
        T1 := kcT1 i, saturationTemp := none,
        densityKgM3 := kcDensityKgM3 i, relativeDensity := none,
        volumeFlowM3h := none, massFlowKgh := some W,
        normalFlowNm3h := none, kinematicViscosity := nu,
        Pv := none, FF := none, xF := none,
        x := some steamResult.intermediate.x,
        Fgamma := some steamResult.intermediate.Fgamma,
        Y := some steamResult.intermediate.Y, D1 := kcD1 i, D2 := kcD2 i,
        FP := steamResult.intermediate.FP, FLP := kcFLPSeed i,
        sumK := kcSumKv i, Rev := 0, FR := 1, lambda := 0 }
    usedFormula := steamResult.usedFormula
    hasFittings := kcHasFittings i
    errors := kcBaseErrors i
    warnings := kcWarnings i steamResult.kv }

/-- The orchestrator `KvCalculator.calculate`.  `none` models a thrown
conversion error (viscosity or flow unit/kind mismatch); all other paths
return a result whose `errors` list carries the validation findings. -/
def calculate (i : KvInput) : Option KvResult :=
  match kcKinViscOpt i with
  | none => none
  | some nu =>
    match i.fluidType with
    | FluidType.Liquid =>
      (convertLiquidFlowToM3h i.flowRate i.flowUnit (kcDensityKgM3 i)).map
        (kcLiquidResult i nu)
    | FluidType.Gas => some (kcGasResult i nu)
    | FluidType.Steam =>
      (convertSteamFlowToKgh i.flowRate i.flowUnit (kcDensityKgM3 i)).map
        (kcSteamResult i nu)

/-! ## Noise input and state types, `src/calculators/noise/types.ts` -/

/-- Gas noise flow states (IEC 60534-8-3), ordered by decreasing `P2`. -/
inductive GasFlowState
  | StateI
  | StateII
  | StateIII
  | StateIV
  | StateV
deriving DecidableEq

/-- Liquid cavitation states (IEC 60534-8-4). -/
inductive CavitationState
  | NoCavitation
  | IncipientCavitation
  | ConstantCavitation
  | Flashing
deriving DecidableEq

/-- Noise model input (`NoiseInput`), shared by both models. -/
structure NoiseInput where
  fluidType : FluidType
  P1 : ℝ
  P2 : ℝ
  deltaP : ℝ
  T1 : ℝ
  massFlow : ℝ
  volumeFlow : Option ℝ
  density : ℝ
  density2 : Option ℝ
  gamma : Option ℝ
  molecularWeight : Option ℝ
  Pv : Option ℝ
  soundSpeed : Option ℝ
  Kv : ℝ
  Cv : ℝ
  FL : ℝ
  xT : Option ℝ
  Fd : Option ℝ
  xFz : Option ℝ
  xF : Option ℝ
  Di : ℝ
  tp : ℝ
  d : ℝ
  pipeMaterial : Option PipeMaterial

/-! ## Gas noise model, `src/calculators/gas-noise.ts` (IEC 60534-8-3)

Every `const` of the source main function `calculateGasNoise` is hoisted
into a `gn…` definition of the input. -/

namespace GasNoise

/-- Inlet sound speed, `calculateInletSoundSpeed`. -/
def calculateInletSoundSpeed (gamma T1 M : ℝ) : ℝ :=
  Real.sqrt (gamma * NOISE_CONSTANTS.R * T1 / M)

/-- Outlet sound speed, `calculateOutletSoundSpeed` (isothermal: `c2 = c1`). -/
def calculateOutletSoundSpeed (c1 : ℝ) : ℝ := c1

/-- Outlet density, `calculateOutletDensity` (isothermal). -/
def calculateOutletDensity (rho1 P2 P1 : ℝ) : ℝ := rho1 * P2 / P1

/-- Boundary pressures and state of `determineGasFlowState` in
`gas-noise.ts` (all pressures returned in kPa). -/
structure GasFlowInfo where
  state : GasFlowState
  P2C : ℝ
  Pvcc : ℝ
  P2B : ℝ
  P2CE : ℝ
  alpha : ℝ

/-- Five-state classification, `determineGasFlowState` of `gas-noise.ts`:
boundaries are computed in Pa from `Pvcc = P1·(2/(γ+1))^(γ/(γ−1))`,
`P2C = P1 − FL²·(P1−Pvcc)`, `α = Pvcc/P2C`, `P2B = P1/22/α·(1/γ)^(γ/(γ−1))`,
`P2CE = P1/22/α`, converted back to kPa, and the state is picked by
comparing `P2` against them in decreasing order. -/
def determineGasFlowState (P1 P2 xT gamma FL : ℝ) : GasFlowInfo :=
  let _ := xT
  let P1_Pa := P1 * 1000
  let Pvcc_Pa := P1_Pa * (2 / (gamma + 1)) ^ (gamma / (gamma - 1))
  let P2C_Pa := P1_Pa - FL * FL * (P1_Pa - Pvcc_Pa)
  let alpha := Pvcc_Pa / P2C_Pa
  let P2B_Pa := P1_Pa / 22 / alpha * (1 / gamma) ^ (gamma / (gamma - 1))
  let P2CE_Pa := P1_Pa / 22 / alpha
  let Pvcc := Pvcc_Pa / 1000
  let P2C := P2C_Pa / 1000
  let P2B := P2B_Pa / 1000
  let P2CE := P2CE_Pa / 1000
  let state :=
    if P2 ≥ P2C then GasFlowState.StateI
    else if P2 ≥ Pvcc then GasFlowState.StateII
    else if P2 ≥ P2B then GasFlowState.StateIII
    else if P2 ≥ P2CE then GasFlowState.StateIV
    else GasFlowState.StateV
  { state := state, P2C := P2C, Pvcc := Pvcc, P2B := P2B, P2CE := P2CE, alpha := alpha }

/-- Vena contracta pressure, `calculateVenaContractaPressure`. -/
def calculateVenaContractaPressure (P1 P2 FL : ℝ) (state : GasFlowState) (Pvcc : ℝ) : ℝ :=
  if state = GasFlowState.StateI then P1 - (P1 - P2) / (FL * FL) else Pvcc

/-- Vena contracta Mach number, `calculateVenaContractaMach`. -/
def calculateVenaContractaMach (P1 Pvc gamma : ℝ) (state : GasFlowState) : ℝ :=
  if state = GasFlowState.StateI then
    Real.sqrt (max 0 (2 / (gamma - 1) * ((P1 / Pvc) ^ ((gamma - 1) / gamma) - 1)))
  else 1

/-- Vena contracta velocity, `calculateVenaContractaVelocity`. -/
def calculateVenaContractaVelocity (Mvc c1 P1 Pvc gamma : ℝ) : ℝ :=
  Mvc * c1 * (Pvc / P1) ^ ((gamma - 1) / (2 * gamma))

/-- Free jet Mach number, `calculateJetMachNumber` (States II–IV). -/
def calculateJetMachNumber (P1 P2 alpha gamma : ℝ) : ℝ :=
  Real.sqrt (max 0 (2 / (gamma - 1) * ((P1 / (alpha * P2)) ^ ((gamma - 1) / gamma) - 1)))

/-- Free jet Mach number of State V, `calculateJetMachNumberStateV`. -/
def calculateJetMachNumberStateV (gamma : ℝ) : ℝ :=
  Real.sqrt (max 0 (2 / (gamma - 1) * ((22:ℝ) ^ ((gamma - 1) / gamma) - 1)))

/-- Acoustic efficiency, `calculateAcousticEfficiency`, capped at
`ETA_MAX`. -/
def calculateAcousticEfficiency (state : GasFlowState) (Mvc Mj FL : ℝ) : ℝ :=
  let mach := max NOISE_CONSTANTS.MVC_MIN Mvc
  let machJ := max NOISE_CONSTANTS.MVC_MIN Mj
  let FL2 := FL * FL
  let eta :=
    match state with
    | GasFlowState.StateI => 1e-4 * mach ^ (3.6 : ℝ)
    | GasFlowState.StateII => 1e-4 * machJ ^ (6.6 * FL2)
    | GasFlowState.StateIII => 1e-4 * machJ ^ (6.6 * FL2)
    | GasFlowState.StateIV => 1e-4 * machJ ^ (2:ℕ) / 2 * Real.sqrt 2 ^ (6.6 * FL2)
    | GasFlowState.StateV => 1e-4 * machJ ^ (2:ℕ) / 2 * Real.sqrt 2 ^ (6.6 * FL2)
  min eta NOISE_CONSTANTS.ETA_MAX

/-- Outlet velocity, `calculateOutletVelocity`. -/
def calculateOutletVelocity (massFlow rho2 Di : ℝ) : ℝ :=
  massFlow / 3600 / (rho2 * (Real.pi * (Di / 1000 / 2) ^ (2:ℕ)))

/-- Mechanical power, `calculateMechanicalPower`. -/
def calculateMechanicalPower (massFlow Uvc : ℝ) : ℝ :=
  massFlow / 3600 * Uvc * Uvc / 2

/-- Internal sound pressure level, `calculateInternalNoiseLevel`
(`Di` in metres). -/
def calculateInternalNoiseLevel (Wa rho2 c2 Di : ℝ) : ℝ :=
  if Wa ≤ 0 then NOISE_CONSTANTS.MIN_NOISE
  else 10 * log10 (NOISE_CONSTANTS.INTERNAL_NOISE_COEF * Wa * rho2 * c2 / (Di * Di))

/-- Pipe transmission loss, `calculateTransmissionLoss` of
`gas-noise.ts` (`tp`, `Di` in mm; the material parameter is unused in the
source body, which takes the fixed `Gx = 1.9e-3`). -/
def calculateTransmissionLoss (tp fp Di rho2 c2 : ℝ) (pipeMaterial : PipeMaterial) : ℝ :=
  let _ := pipeMaterial
  let tp_m := tp / 1000
  let Di_m := Di / 1000
  let fr := NOISE_CONSTANTS.CP_PIPE / (Real.pi * Di_m)
  let f0 := fr / 4 * (c2 / NOISE_CONSTANTS.C0)
  let fg := NOISE_CONSTANTS.C0 ^ (2:ℕ) * Real.sqrt 3 / (NOISE_CONSTANTS.CP_PIPE * Real.pi * tp_m)
  let Gx : ℝ := 1.9e-3
  let Gy :=
    if fp < f0 ∧ f0 < fg then f0 / fg
    else if fp < f0 ∧ f0 ≥ fg then 1
    else if fp ≥ f0 ∧ fp < fg then fp / fg
    else 1
  let term1 := NOISE_CONSTANTS.TL_COEF_GAS * (c2 / (tp_m * fp)) ^ (2:ℕ) * Gx
  let term2 := rho2 * c2 / (415 * Gy) + 1
  10 * log10 (term1 / term2)

/-- Default-resolved `gamma` of `calculateGasNoise`. -/
def gnGamma (i : NoiseInput) : ℝ := i.gamma.getD 1.4

/-- Default-resolved molecular weight of `calculateGasNoise`. -/
def gnM (i : NoiseInput) : ℝ := i.molecularWeight.getD 29

/-- Default-resolved `xT` of `calculateGasNoise`. -/
def gnXT (i : NoiseInput) : ℝ := i.xT.getD 0.72

/-- Default-resolved pipe material. -/
def gnPipeMaterial (i : NoiseInput) : PipeMaterial := i.pipeMaterial.getD PipeMaterial.steel

/-- `Fgamma` of `calculateGasNoise`. -/
def gnFgamma (i : NoiseInput) : ℝ := gnGamma i / 1.4

/-- Flow classification of `calculateGasNoise`. -/
def gnFlow (i : NoiseInput) : GasFlowInfo :=
  determineGasFlowState i.P1 i.P2 (gnXT i) (gnGamma i) i.FL

/-- Inlet sound speed `c1`. -/
def gnC1 (i : NoiseInput) : ℝ := calculateInletSoundSpeed (gnGamma i) i.T1 (gnM i)

/-- Vena contracta pressure `Pvc`. -/
def gnPvc (i : NoiseInput) : ℝ :=
  calculateVenaContractaPressure i.P1 i.P2 i.FL (gnFlow i).state (gnFlow i).Pvcc

/-- Vena contracta Mach number `Mvc`. -/
def gnMvc (i : NoiseInput) : ℝ :=
  calculateVenaContractaMach i.P1 (gnPvc i) (gnGamma i) (gnFlow i).state

/-- Jet Mach number `Mj`. -/
def gnMj (i : NoiseInput) : ℝ :=
  if (gnFlow i).state = GasFlowState.StateV then calculateJetMachNumberStateV (gnGamma i)
  else calculateJetMachNumber i.P1 i.P2 (gnFlow i).alpha (gnGamma i)

/-- Vena contracta velocity `Uvc`. -/
def gnUvc (i : NoiseInput) : ℝ :=
  calculateVenaContractaVelocity (gnMvc i) (gnC1 i) i.P1 (gnPvc i) (gnGamma i)

/-- Outlet density `rho2`. -/
def gnRho2 (i : NoiseInput) : ℝ := calculateOutletDensity i.density i.P2 i.P1

/-- Outlet sound speed `c2`. -/
def gnC2 (i : NoiseInput) : ℝ := calculateOutletSoundSpeed (gnC1 i)

/-- Vena contracta temperature `Tvc`. -/
def gnTvc (i : NoiseInput) : ℝ :=
  if (gnFlow i).state = GasFlowState.StateI then
    i.T1 * (gnPvc i / i.P1) ^ ((gnGamma i - 1) / gnGamma i)
  else 2 * i.T1 / (1 + gnGamma i)

/-- Vena contracta sound speed `Cvc`. -/
def gnCvc (i : NoiseInput) : ℝ :=
  Real.sqrt (gnGamma i * NOISE_CONSTANTS.R * gnTvc i / gnM i)

/-- Outlet velocity `U2`. -/
def gnU2 (i : NoiseInput) : ℝ := calculateOutletVelocity i.massFlow (gnRho2 i) i.Di

/-- Acoustic efficiency `eta`. -/
def gnEta (i : NoiseInput) : ℝ :=
  calculateAcousticEfficiency (gnFlow i).state (gnMvc i) (gnMj i) i.FL

/-- Mechanical power `Wm` (State I uses the vena contracta velocity,
other states the critical sound speed `Cvcc`). -/
def gnWm (i : NoiseInput) : ℝ :=
  if (gnFlow i).state = GasFlowState.StateI then
    calculateMechanicalPower i.massFlow (gnUvc i)
  else
    let Cvcc := Real.sqrt (gnGamma i * NOISE_CONSTANTS.R * (2 * i.T1 / (1 + gnGamma i)) / gnM i)
    i.massFlow / 3600 * Cvcc * Cvcc / 2

/-- Sound power `Wa` (state-specific correction: `FL²` for State I, the
pressure ratio for State II, none otherwise; `rw = 0.25`). -/
def gnWa (i : NoiseInput) : ℝ :=
  let rw : ℝ := 0.25
  if (gnFlow i).state = GasFlowState.StateI then gnEta i * rw * gnWm i * i.FL * i.FL
  else if (gnFlow i).state = GasFlowState.StateII then
    gnEta i * rw * gnWm i * ((i.P1 - i.P2) / (i.P1 - (gnFlow i).Pvcc))
  else gnEta i * rw * gnWm i

/-- Jet diameter `Dj = N14·Fd·√(Kv·FL)` with the truthiness defaults
`N14 || 0.0049`, `input.Fd || 0.46`, `input.Kv || 100`. -/
def gnDj (i : NoiseInput) : ℝ :=
  jsOrR NOISE_CONSTANTS.N14 0.0049 * jsOr i.Fd 0.46 * Real.sqrt (jsOrR i.Kv 100 * i.FL)

/-- Raw peak frequency by state. -/
def gnFpRaw (i : NoiseInput) : ℝ :=
  if (gnFlow i).state = GasFlowState.StateI then 0.2 * gnUvc i / gnDj i
  else if (gnFlow i).state = GasFlowState.StateII ∨ (gnFlow i).state = GasFlowState.StateIII then
    0.2 * gnMj i * gnCvc i / gnDj i
  else 0.35 * gnCvc i / (1.25 * gnDj i * Real.sqrt (max 0.01 (gnMj i * gnMj i - 1)))

/-- Peak frequency clamped into `[100, 10000]` Hz. -/
def gnFp (i : NoiseInput) : ℝ := max 100 (min 10000 (gnFpRaw i))

/-- Internal sound pressure level `Lpi`. -/
def gnLpi (i : NoiseInput) : ℝ :=
  calculateInternalNoiseLevel (gnWa i) (gnRho2 i) (gnC2 i) (i.Di / 1000)

/-- Transmission loss `TL`. -/
def gnTL (i : NoiseInput) : ℝ :=
  calculateTransmissionLoss i.tp (gnFp i) i.Di (gnRho2 i) (gnC2 i) (gnPipeMaterial i)

/-- Outlet Mach number `M0`. -/
def gnM0 (i : NoiseInput) : ℝ :=
  4 * (i.massFlow / 3600) / (Real.pi * (i.d / 1000) ^ (2:ℕ) * gnRho2 i * gnC2 i)

/-- Pipe Mach number `M2`, capped at 0.8. -/
def gnM2 (i : NoiseInput) : ℝ :=
  min (4 * (i.massFlow / 3600) / (Real.pi * (i.Di / 1000) * (i.Di / 1000) * gnRho2 i * gnC2 i))
    0.8

/-- Mach number correction `Lg`. -/
def gnLg (i : NoiseInput) : ℝ :=
  if gnM2 i > 0 then 16 * log10 (1 / (1 - gnM2 i)) else 0

/-- External level `Lpae = 5 + Lpi + TL + Lg`. -/
def gnLpae (i : NoiseInput) : ℝ := 5 + gnLpi i + gnTL i + gnLg i

/-- The 1 m distance correction
`10·log10((Di + 2·tp + 2 mm)/(Di + 2·tp))` (in metres). -/
def gnDistCorr (i : NoiseInput) : ℝ :=
  10 * log10 ((i.Di / 1000 + 2 * (i.tp / 1000) + 0.002) / (i.Di / 1000 + 2 * (i.tp / 1000)))

/-- External 1 m level `Lpe = Lpae − distance correction`. -/
def gnLpe (i : NoiseInput) : ℝ := gnLpae i - gnDistCorr i

/-- A-weighting correction `deltaLA` of `calculateGasNoise`, computed
from the peak frequency but not added to the final level. -/
def gnDeltaLA (i : NoiseInput) : ℝ := calculateAWeighting (gnFp i)

/-- Final clamped level before rounding:
`max(MIN_NOISE, min(MAX_NOISE, Lpe))`. -/
def gnClamped (i : NoiseInput) : ℝ :=
  max NOISE_CONSTANTS.MIN_NOISE (min NOISE_CONSTANTS.MAX_NOISE (gnLpe i))

/-- Intermediate record of `calculateGasNoise` (`GasNoiseIntermediate`). -/
structure GasNoiseIntermediate where
  P2C : ℝ
  Pvc : ℝ
  Pvcc : ℝ
  c1 : ℝ
  c2 : ℝ
  Uvc : ℝ
  U2 : ℝ
  Mvc : ℝ
  Mj : ℝ
  eta : ℝ
  Wm : ℝ
  Wa : ℝ
  Lpi : ℝ
  TL : ℝ
  Lpe : ℝ
  fp : ℝ
  deltaLA : ℝ
  rho2 : ℝ
  Fgamma : ℝ
  Dj : ℝ
  M0 : ℝ
  Lg : ℝ

/-- Result record of `calculateGasNoise` (`NoiseResult`, gas variant). -/
structure GasNoiseResult where
  noiseLevel : ℝ
  flowState : GasFlowState
  intermediate : GasNoiseIntermediate
  peakFrequency : ℝ

/-- Gas noise main function, `calculateGasNoise`: the returned level is
the clamped `Lpe` rounded to 0.1 dB; `deltaLA` is only reported in the
intermediates. -/
def calculateGasNoise (i : NoiseInput) : GasNoiseResult :=
  { noiseLevel := jsRound (gnClamped i * 10) / 10
    flowState := (gnFlow i).state
    intermediate :=
      { P2C := (gnFlow i).P2C, Pvc := gnPvc i, Pvcc := (gnFlow i).Pvcc,
        c1 := gnC1 i, c2 := gnC2 i, Uvc := gnUvc i, U2 := gnU2 i,
        Mvc := gnMvc i, Mj := gnMj i, eta := gnEta i, Wm := gnWm i,
        Wa := gnWa i, Lpi := gnLpi i, TL := gnTL i, Lpe := gnLpe i,
        fp := gnFp i, deltaLA := gnDeltaLA i, rho2 := gnRho2 i,
        Fgamma := gnFgamma i, Dj := gnDj i, M0 := gnM0 i, Lg := gnLg i }
    peakFrequency := jsRound (gnFp i) }

end GasNoise

/-! ## Liquid noise model, `src/calculators/liquid-noise.ts`
(IEC 60534-8-4).  Every `const` of the source main function
`calculateLiquidNoise` is hoisted into an `ln…` definition. -/

namespace LiquidNoise

/-- Cavitation classification, `determineCavitationState`. -/
def determineCavitationState (xF xFz FL : ℝ) : CavitationState :=
  if xF ≤ xFz then CavitationState.NoCavitation
  else if xF ≤ FL * FL then CavitationState.IncipientCavitation
  else if xF ≤ 1 then CavitationState.ConstantCavitation
  else CavitationState.Flashing

/-- Incipient cavitation ratio, `calculateXFz` of `liquid-noise.ts`. -/
def calculateXFz (Cv Fd FL : ℝ) : ℝ :=
  0.9 / Real.sqrt (1 + 3 * Fd * Real.sqrt (Cv / (NOISE_CONSTANTS.N34 * FL)))

/-- Effective pressure drop, `calculateEffectiveDeltaP`. -/
def calculateEffectiveDeltaP (deltaP FL P1 Pv : ℝ) : ℝ :=
  min deltaP (FL * FL * (P1 - Pv))

/-- Vena contracta velocity, `calculateVenaContractaVelocity` of
`liquid-noise.ts` (`deltaPc` converted from kPa to Pa). -/
def calculateVenaContractaVelocity (FL deltaPc rhoL : ℝ) : ℝ :=
  1 / FL * Real.sqrt (2 * (deltaPc * 1000) / rhoL)

/-- Turbulent acoustic efficiency, `calculateTurbulentEfficiency`:
`10^(−4.6)·(Uvc/cL)`. -/
def calculateTurbulentEfficiency (Uvc cL : ℝ) : ℝ :=
  (10:ℝ) ^ NOISE_CONSTANTS.A_ETA_TURB * (Uvc / cL)

/-- Cavitation acoustic efficiency, `calculateCavitationEfficiency`
(zero outside its validity guards). -/
def calculateCavitationEfficiency (etaTurb xF xFzp P1 P2 deltaPc : ℝ) : ℝ :=
  if xF ≤ xFzp ∨ xFzp ≥ 1 ∨ xFzp ≤ 0 then 0
  else if deltaPc ≤ 0 ∨ xF ≥ 1 then 0
  else
    0.32 * etaTurb * Real.sqrt ((P1 - P2) / deltaPc) * Real.exp (5 * xFzp) *
      ((1 - xFzp) / (1 - xF)) ^ (0.5 : ℝ) * (xF / xFzp) ^ (5:ℕ) *
      (xF - xFzp) ^ (1.5 : ℝ)

/-- Mechanical power, `calculateMechanicalPower` of `liquid-noise.ts`. -/
def calculateMechanicalPower (massFlow Uvc FL : ℝ) : ℝ :=
  massFlow / 3600 * Uvc * Uvc * FL * FL / 2

/-- Valve kind of the sound power selection. -/
inductive ValveKind
  | standard
  | cage
  | multistage
deriving DecidableEq

/-- Sound power coefficient, `getSoundPowerRatio`. -/
def getSoundPowerRatio (valveType : ValveKind) : ℝ :=
  match valveType with
  | ValveKind.cage => NOISE_CONSTANTS.RW_CAGE
  | ValveKind.multistage => NOISE_CONSTANTS.RW_MULTISTAGE
  | ValveKind.standard => NOISE_CONSTANTS.RW_STANDARD

/-- Sound power, `calculateSoundPower` of `liquid-noise.ts`. -/
def calculateSoundPower (etaTurb etaCav Wm rw : ℝ) (cavitationState : CavitationState) : ℝ :=
  if cavitationState = CavitationState.NoCavitation then etaTurb * Wm
  else (etaTurb + etaCav) * Wm * rw

/-- Strouhal number, `calculateStrouhalNumber` (`d`, `d0` in metres,
`P1`, `Pv` in Pa). -/
def calculateStrouhalNumber (FL Kv Fd xFzp d d0 P1 Pv : ℝ) : ℝ :=
  let numerator := 0.036 * (FL * FL) * Kv * Fd ^ (0.75 : ℝ)
  let deltaPv := max 1 (P1 - Pv)
  let denominator :=
    NOISE_CONSTANTS.N34 * xFzp ^ (1.5 : ℝ) * d * d0 * deltaPv ^ (0.57 : ℝ)
  if denominator ≤ 0 then 0.1 else numerator / denominator

/-- Turbulent peak frequency, `calculatePeakFrequencyTurbulent`. -/
def calculatePeakFrequencyTurbulent (Nstr Uvc Dj : ℝ) : ℝ :=
  if Dj ≤ 0 then 1000 else Nstr * Uvc / Dj

/-- Cavitation peak frequency, `calculatePeakFrequencyCavitation`. -/
def calculatePeakFrequencyCavitation (fpTurb xF xFzp : ℝ) : ℝ :=
  if xF ≤ 0 ∨ xFzp ≤ 0 ∨ xF ≥ 1 then fpTurb
  else 6 * fpTurb * ((1 - xF) / (1 - xFzp)) ^ (2:ℕ) * (xFzp / xF) ^ (2.5 : ℝ)

/-- Internal sound pressure level, `calculateInternalNoiseLevel` of
`liquid-noise.ts` (`Di` in metres). -/
def calculateInternalNoiseLevel (Wa rhoL cL Di : ℝ) : ℝ :=
  if Wa ≤ 0 then NOISE_CONSTANTS.MIN_NOISE
  else 10 * log10 (NOISE_CONSTANTS.INTERNAL_NOISE_COEF * Wa * rhoL * cL / (Di * Di))

/-- Transmission loss, `calculateTransmissionLoss` of `liquid-noise.ts`:
ring-frequency minimum `TLfr` plus the frequency correction `deltaTL`. -/
def calculateTransmissionLoss (tp fp Di : ℝ) (pipeMaterial : PipeMaterial) : ℝ :=
  let rhoP := getPipeMaterialDensity pipeMaterial
  let tp_m := tp / 1000
  let Di_m := Di / 1000
  let rho0 := NOISE_CONSTANTS.RHO_0
  let c0 := NOISE_CONSTANTS.C0
  let cp := NOISE_CONSTANTS.CP_PIPE
  let fr := cp / (Real.pi * Di_m)
  let TLfr := -10 - 10 * log10 (cp * rhoP * tp_m / (rho0 * c0 * Di_m))
  let deltaTL := -20 * log10 (fr / fp + (fp / fr) ^ (1.5 : ℝ))
  TLfr + deltaTL

/-- Cavitation transmission-loss correction,
`calculateCavitationTransmissionLoss`. -/
def calculateCavitationTransmissionLoss (TLturb fpTurb fpCav etaTurb etaCav : ℝ) : ℝ :=
  if fpTurb ≤ 0 ∨ etaTurb + etaCav ≤ 0 then TLturb
  else
    TLturb +
      10 * log10 (250 * fpCav ^ (1.5 : ℝ) / (fpTurb * fpTurb) * (etaCav / (etaTurb + etaCav)))

/-- External noise level helper, `calculateExternalNoiseLevel` of
`liquid-noise.ts`: `Lpe = Lpi − TL + 3` (fixed +3 dB distance term).
The main function does not call it. -/
def calculateExternalNoiseLevel (Lpi TL : ℝ) : ℝ := Lpi - TL + 3

/-- Default-resolved vapor pressure. -/
def lnPv (i : NoiseInput) : ℝ := i.Pv.getD 2.34

/-- Default-resolved liquid sound speed. -/
def lnCL (i : NoiseInput) : ℝ := i.soundSpeed.getD NOISE_CONSTANTS.WATER_SOUND_SPEED

/-- Default-resolved `Fd`. -/
def lnFd (i : NoiseInput) : ℝ := i.Fd.getD 0.42

/-- Default-resolved pipe material. -/
def lnPipeMaterial (i : NoiseInput) : PipeMaterial := i.pipeMaterial.getD PipeMaterial.steel

/-- Resolved mass flow `massFlow || (volumeFlow ? volumeFlow·ρ : 0)`. -/
def lnMFlow (i : NoiseInput) : ℝ :=
  jsOrR i.massFlow (if i.volumeFlow.getD 0 ≠ 0 then i.volumeFlow.getD 0 * i.density else 0)

/-- Pressure differential ratio `xF` of the liquid noise model. -/
def lnXF (i : NoiseInput) : ℝ := (i.P1 - i.P2) / (i.P1 - lnPv i)

/-- Incipient cavitation ratio `xFz` (`input.xFz || calculateXFz(Cv||Kv, Fd, FL)`). -/
def lnXFz (i : NoiseInput) : ℝ :=
  jsOr i.xFz (calculateXFz (jsOrR i.Cv i.Kv) (lnFd i) i.FL)

/-- Inlet-pressure-corrected ratio `xFzp = xFz·(6·10⁵/P1[Pa])^0.125`. -/
def lnXFzp (i : NoiseInput) : ℝ := lnXFz i * (6e5 / (i.P1 * 1000)) ^ (0.125 : ℝ)

/-- Cavitation state of the liquid noise model. -/
def lnCavState (i : NoiseInput) : CavitationState :=
  determineCavitationState (lnXF i) (lnXFzp i) i.FL

/-- Whether the cavitation corrections apply. -/
def lnIsCavitation (i : NoiseInput) : Prop :=
  lnCavState i ≠ CavitationState.NoCavitation ∧ lnCavState i ≠ CavitationState.Flashing

/-- Effective pressure drop `deltaPc`. -/
def lnDeltaPc (i : NoiseInput) : ℝ :=
  calculateEffectiveDeltaP i.deltaP i.FL i.P1 (lnPv i)

/-- Vena contracta velocity `Uvc`. -/
def lnUvc (i : NoiseInput) : ℝ :=
  calculateVenaContractaVelocity i.FL (lnDeltaPc i) i.density

/-- Turbulent efficiency `etaTurb`. -/
def lnEtaTurb (i : NoiseInput) : ℝ := calculateTurbulentEfficiency (lnUvc i) (lnCL i)

/-- Cavitation efficiency `etaCav` (zero when not cavitating). -/
def lnEtaCav (i : NoiseInput) : ℝ :=
  if lnIsCavitation i then
    calculateCavitationEfficiency (lnEtaTurb i) (lnXF i) (lnXFzp i) i.P1 i.P2 (lnDeltaPc i)
  else 0

/-- Mechanical power `Wm`. -/
def lnWm (i : NoiseInput) : ℝ := calculateMechanicalPower (lnMFlow i) (lnUvc i) i.FL

/-- Sound power `Wa` (standard valve, `rw = RW_STANDARD`). -/
def lnWa (i : NoiseInput) : ℝ :=
  calculateSoundPower (lnEtaTurb i) (lnEtaCav i) (lnWm i)
    (getSoundPowerRatio ValveKind.standard) (lnCavState i)

/-- Jet diameter `Dj = (N14 || 0.0049)·Fd·√((Cv||Kv)·FL)`. -/
def lnDj (i : NoiseInput) : ℝ :=
  jsOrR NOISE_CONSTANTS.N14 0.0049 * lnFd i * Real.sqrt (jsOrR i.Cv i.Kv * i.FL)

/-- Strouhal number `Nstr`. -/
def lnNstr (i : NoiseInput) : ℝ :=
  calculateStrouhalNumber i.FL (jsOrR i.Cv i.Kv) (lnFd i) (lnXFzp i) (i.d / 1000)
    (i.d / 1000) (i.P1 * 1000) (lnPv i * 1000)

/-- Turbulent peak frequency. -/
def lnFpTurb (i : NoiseInput) : ℝ :=
  calculatePeakFrequencyTurbulent (lnNstr i) (lnUvc i) (lnDj i)

/-- Cavitation peak frequency. -/
def lnFpCav (i : NoiseInput) : ℝ :=
  if lnIsCavitation i then calculatePeakFrequencyCavitation (lnFpTurb i) (lnXF i) (lnXFzp i)
  else lnFpTurb i

/-- Selected peak frequency. -/
def lnFp (i : NoiseInput) : ℝ := if lnIsCavitation i then lnFpCav i else lnFpTurb i

/-- Peak frequency clamped into `[100, 20000]` Hz. -/
def lnFpValid (i : NoiseInput) : ℝ := max 100 (min 20000 (lnFp i))

/-- Internal sound pressure level `Lpi`. -/
def lnLpi (i : NoiseInput) : ℝ :=
  calculateInternalNoiseLevel (lnWa i) i.density (lnCL i) (i.Di / 1000)

/-- Turbulent transmission loss. -/
def lnTLturb (i : NoiseInput) : ℝ :=
  calculateTransmissionLoss i.tp (lnFpValid i) i.Di (lnPipeMaterial i)

/-- Transmission loss with the cavitation correction when cavitating. -/
def lnTL (i : NoiseInput) : ℝ :=
  if lnIsCavitation i then
    calculateCavitationTransmissionLoss (lnTLturb i) (lnFpTurb i) (lnFpCav i)
      (lnEtaTurb i) (lnEtaCav i)
  else lnTLturb i

/-- The 1 m distance correction of the liquid model (same form as the gas
model's). -/
def lnDistCorr (i : NoiseInput) : ℝ :=
  10 * log10 ((i.Di / 1000 + 2 * (i.tp / 1000) + 0.002) / (i.Di / 1000 + 2 * (i.tp / 1000)))

/-- Final level before clamping: `Lpe = Lpi + TL − distance correction`. -/
def lnLpe (i : NoiseInput) : ℝ := lnLpi i + lnTL i - lnDistCorr i

/-- Final clamped level before rounding. -/
def lnClamped (i : NoiseInput) : ℝ :=
  max NOISE_CONSTANTS.MIN_NOISE (min NOISE_CONSTANTS.MAX_NOISE (lnLpe i))

/-- Intermediate record of `calculateLiquidNoise`
(`LiquidNoiseIntermediate`). -/
structure LiquidNoiseIntermediate where
  deltaPc : ℝ
  Uvc : ℝ
  cL : ℝ
  etaTurb : ℝ
  etaCav : ℝ
  eta : ℝ
  Wm : ℝ
  Wa : ℝ
  rw : ℝ
  Lpi : ℝ
  TL : ℝ
  Lpe : ℝ
  fp : ℝ
  xF : ℝ
  xFz : ℝ

/-- Result record of `calculateLiquidNoise` (`NoiseResult`, liquid
variant). -/
structure LiquidNoiseResult where
  noiseLevel : ℝ
  cavitationState : CavitationState
  intermediate : LiquidNoiseIntermediate
  peakFrequency : ℝ

/-- Liquid noise main function, `calculateLiquidNoise`: `none` models the
thrown error when neither mass flow nor volume flow is supplied; a
`Flashing` classification short-circuits to a zero-filled result; the
final level is the clamped `Lpe` rounded to 0.1 dB. -/
def calculateLiquidNoise (i : NoiseInput) : Option LiquidNoiseResult :=
  if lnMFlow i = 0 then none
  else if lnCavState i = CavitationState.Flashing then
    some
      { noiseLevel := 0
        cavitationState := lnCavState i
        intermediate :=
          { deltaPc := 0, Uvc := 0, cL := lnCL i, etaTurb := 0, etaCav := 0,
            eta := 0, Wm := 0, Wa := 0, rw := 0.25, Lpi := 0, TL := 0,
            Lpe := 0, fp := 0, xF := lnXF i, xFz := lnXFz i }
        peakFrequency := 0 }
  else
    some
      { noiseLevel := jsRound (lnClamped i * 10) / 10
        cavitationState := lnCavState i
        intermediate :=
          { deltaPc := lnDeltaPc i, Uvc := lnUvc i, cL := lnCL i,
            etaTurb := lnEtaTurb i, etaCav := lnEtaCav i,
            eta := lnEtaTurb i + lnEtaCav i, Wm := lnWm i, Wa := lnWa i,
            rw := getSoundPowerRatio ValveKind.standard, Lpi := lnLpi i,
            TL := lnTL i, Lpe := lnLpe i, fp := lnFpValid i, xF := lnXF i,
            xFz := lnXFz i }
        peakFrequency := jsRound (lnFpValid i) }

end LiquidNoise

/-- Modelled from the spec: the final gas/steam noise level as §4.7
describes it, with the peak-frequency A-weighting correction `deltaLA`
added to the external 1 m level before clamping to `[30, 150]` dBA and
rounding to 0.1 dB.  Stated only for comparison with the source's
`calculateGasNoise`, which computes `deltaLA` but does not add it. -/
def gasNoiseLevelWithAWeighting (i : NoiseInput) : ℝ :=
  jsRound (max NOISE_CONSTANTS.MIN_NOISE (min NOISE_CONSTANTS.MAX_NOISE
    (GasNoise.gnLpe i + GasNoise.gnDeltaLA i)) * 10) / 10

/-! ## Concrete inputs used by the claim theorems -/

/-- Concrete steam input exhibiting the fixed-seed piping correction:
`d = 50` against 80 mm pipes, rated Kv 10. -/
def c2Input : SteamKvParams :=
  { W := 100, P1 := 200, P2 := 100, T1 := 400, rho1 := 4, gamma := 1.4,
    xT := 0.72, d := 50, D1 := 80, D2 := 80, ratedKv := 10, FR := 1 }

/-- Concrete gas input with matching diameters for the C3 witness. -/
def c3Input : GasKvParams :=
  { Qn := 100, P1 := 200, P2 := 100, T1 := 300, M := 29, Z := 1, gamma := 1.4,
    xT := 0.72, d := 50, D1 := 50, D2 := 50, ratedKv := 10, FR := 1 }

/-- Concrete gas noise input for the C6 witness. -/
def c6GasInput : NoiseInput :=
  { fluidType := FluidType.Gas, P1 := 200, P2 := 100, deltaP := 100, T1 := 300,
    massFlow := 1000, volumeFlow := none, density := 2, density2 := none,
    gamma := none, molecularWeight := none, Pv := none, soundSpeed := none,
    Kv := 10, Cv := 11.56, FL := 0.9, xT := some 0.72, Fd := none, xFz := none,
    xF := none, Di := 100, tp := 5, d := 50, pipeMaterial := none }

/-- Concrete liquid noise input for the C6 witness (non-flashing: with
`P1 = 600` kPa the inlet correction factor is exactly one and the
supplied `xFz = 1/2` dominates `xF = 1/5`). -/
def liquidNoiseWitnessInput : NoiseInput :=
  { fluidType := FluidType.Liquid, P1 := 600, P2 := 500, deltaP := 100, T1 := 300,
    massFlow := 3600, volumeFlow := none, density := 1000, density2 := none,
    gamma := none, molecularWeight := none, Pv := some 100, soundSpeed := none,
    Kv := 10, Cv := 0, FL := 1, xT := none, Fd := none, xFz := some (1/2),
    xF := none, Di := 100, tp := 5, d := 50, pipeMaterial := none }

/-- Gas input with valid pressures but a negative rated Kv (violating
the `ratedKv > 0` invariant). -/
def c9Input : KvInput :=
  { fluidType := FluidType.Gas, temperature := 300, tempUnit := TemperatureUnit.Kelvin,
    flowRate := 100, flowUnit := FlowUnit.Nm3h, P1 := 200, P2 := 100,
    pressureUnit := PressureUnit.KPaA, density := 1.2, densityUnit := DensityUnit.KgNm3,
    viscosity := none, viscosityUnit := none, viscosityType := none,
    molecularWeight := some 29, Z := some 1, gamma := some 1.4, Pc := none,
    DN := 50, seatSize := none, FL := 0.9, XT := some 0.72, Fd := none,
    flowChar := FlowCharacteristic.EqualPercentage, rangeability := 50, ratedKv := -5,
    D1w := none, D1T := none, D2w := none, D2T := none }

/-- Gas input with a non-positive absolute inlet pressure, for the C9
witness. -/
def c9BadInput : KvInput :=
  { fluidType := FluidType.Gas, temperature := 300, tempUnit := TemperatureUnit.Kelvin,
    flowRate := 100, flowUnit := FlowUnit.Nm3h, P1 := -50, P2 := -100,
    pressureUnit := PressureUnit.KPaA, density := 1.2, densityUnit := DensityUnit.KgNm3,
    viscosity := none, viscosityUnit := none, viscosityType := none,
    molecularWeight := some 29, Z := some 1, gamma := some 1.4, Pc := none,
    DN := 50, seatSize := none, FL := 0.9, XT := some 0.72, Fd := none,
    flowChar := FlowCharacteristic.EqualPercentage, rangeability := 50, ratedKv := 10,
    D1w := none, D1T := none, D2w := none, D2T := none }

/-- Viscous liquid input (kinematic viscosity 1 m²/s) driving the
Reynolds correction below one, for the C1 witness. -/
def c1Input : KvInput :=
  { fluidType := FluidType.Liquid, temperature := 20, tempUnit := TemperatureUnit.Celsius,
    flowRate := 0.2, flowUnit := FlowUnit.m3h, P1 := 104, P2 := 100,
    pressureUnit := PressureUnit.KPaA, density := 1000, densityUnit := DensityUnit.KgM3,
    viscosity := some 1, viscosityUnit := some ViscosityUnit.m2s,
    viscosityType := some ViscosityType.Kinematic,
    molecularWeight := none, Z := none, gamma := none, Pc := none,
    DN := 50, seatSize := none, FL := 1, XT := none, Fd := some 1,
    flowChar := FlowCharacteristic.EqualPercentage, rangeability := 50, ratedKv := 10,
    D1w := none, D1T := none, D2w := none, D2T := none }

/-- Gas noise input with algebraically exact intermediate values
(`γ = 2`, `FL = 1`, `P2/P1 = 4/9`, sound speed 400 m/s), used to decide
C4. -/
def c4Input : NoiseInput :=
  { fluidType := FluidType.Gas, P1 := 900, P2 := 400, deltaP := 500, T1 := 300,
    massFlow := 3600, volumeFlow := none, density := 9, density2 := none,
    gamma := some 2, molecularWeight := some (12471/400), Pv := none,
    soundSpeed := none, Kv := 1, Cv := 1.156, FL := 1, xT := some 0.72,
    Fd := some (1/100), xFz := none, xF := none, Di := 100, tp := 5, d := 50,
    pipeMaterial := none }

/-! ## General lemmas -/

/-- JavaScript `Math.round` is monotone. -/
theorem round_le_round_of_le {x y : ℝ} (h : x ≤ y) : round x ≤ round y := by
  rw [round_eq, round_eq]
  exact Int.floor_le_floor (by linarith)

/-- The clamped-and-rounded noise level always lies within `[30, 150]`. -/
theorem clampRound_bounds (x : ℝ) :
    30 ≤ jsRound (max NOISE_CONSTANTS.MIN_NOISE (min NOISE_CONSTANTS.MAX_NOISE x) * 10) / 10 ∧
    jsRound (max NOISE_CONSTANTS.MIN_NOISE (min NOISE_CONSTANTS.MAX_NOISE x) * 10) / 10 ≤ 150 := by
  have hlo : (300:ℝ) ≤ max NOISE_CONSTANTS.MIN_NOISE (min NOISE_CONSTANTS.MAX_NOISE x) * 10 := by
    have : (30:ℝ) ≤ max NOISE_CONSTANTS.MIN_NOISE (min NOISE_CONSTANTS.MAX_NOISE x) := by
      simp [NOISE_CONSTANTS.MIN_NOISE]
    linarith
  have hhi : max NOISE_CONSTANTS.MIN_NOISE (min NOISE_CONSTANTS.MAX_NOISE x) * 10 ≤ 1500 := by
    have : max NOISE_CONSTANTS.MIN_NOISE (min NOISE_CONSTANTS.MAX_NOISE x) ≤ 150 := by
      apply max_le
      · simp [NOISE_CONSTANTS.MIN_NOISE]; norm_num
      · exact le_trans (min_le_left _ _) (by simp [NOISE_CONSTANTS.MAX_NOISE])
    linarith
  have h1 : (300:ℤ) ≤ round (max NOISE_CONSTANTS.MIN_NOISE (min NOISE_CONSTANTS.MAX_NOISE x) * 10) := by
    have := round_le_round_of_le hlo
    simpa using this
  have h2 : round (max NOISE_CONSTANTS.MIN_NOISE (min NOISE_CONSTANTS.MAX_NOISE x) * 10) ≤ (1500:ℤ) := by
    have := round_le_round_of_le hhi
    simpa using this
  constructor
  · rw [jsRound, le_div_iff₀ (by norm_num : (0:ℝ) < 10)]
    calc (30:ℝ) * 10 = ((300:ℤ):ℝ) := by norm_num
    _ ≤ _ := by exact_mod_cast h1
  · rw [jsRound, div_le_iff₀ (by norm_num : (0:ℝ) < 10)]
    calc ((round (max NOISE_CONSTANTS.MIN_NOISE (min NOISE_CONSTANTS.MAX_NOISE x) * 10) : ℤ) : ℝ)
        ≤ ((1500:ℤ):ℝ) := by exact_mod_cast h2
    _ = 150 * 10 := by norm_num

/-- Bracketing `log10` between consecutive integer powers of ten. -/
theorem log10_lt_int {x : ℝ} (n : ℤ) (hx : 0 < x) (h : x < (10:ℝ) ^ n) : log10 x < n := by
  rw [log10, Real.logb_lt_iff_lt_rpow (by norm_num) hx]
  rwa [Real.rpow_intCast]

/-- Lower bracketing of `log10` by an integer power of ten. -/
theorem int_lt_log10 {x : ℝ} (n : ℤ) (h : (10:ℝ) ^ n < x) : (n:ℝ) < log10 x := by
  have hx : (0:ℝ) < x := lt_trans (by positivity) h
  rw [log10, Real.lt_logb_iff_rpow_lt (by norm_num) hx]
  rwa [Real.rpow_intCast]

/-- From `a^n < b` (nonnegative `a`) to `a < b^(1/n)`. -/
theorem lt_rpow_inv_of_pow_lt {a b : ℝ} {n : ℕ} (ha : 0 ≤ a) (hn : 0 < n)
    (h : a ^ n < b) : a < b ^ (((n:ℝ))⁻¹) := by
  have hb : (0:ℝ) ≤ b := le_trans (by positivity) h.le
  by_contra hcon
  push_neg at hcon
  have key : (b ^ (((n:ℝ))⁻¹)) ^ n = b := by
    rw [← Real.rpow_natCast (b ^ (((n:ℝ))⁻¹)) n, ← Real.rpow_mul hb,
      inv_mul_cancel₀ (by exact_mod_cast hn.ne' : ((n:ℝ)) ≠ 0), Real.rpow_one]
  have h2 : (b ^ (((n:ℝ))⁻¹)) ^ n ≤ a ^ n := pow_le_pow_left (by positivity) hcon n
  rw [key] at h2
  linarith

/-- `log10 y < 1/8` whenever `y⁸ < 10` (positive `y`). -/
theorem log10_lt_eighth {y : ℝ} (hy : 0 < y) (h : y ^ (8:ℕ) < 10) : log10 y < 1 / 8 := by
  rw [log10, Real.logb_lt_iff_lt_rpow (by norm_num) hy]
  have := lt_rpow_inv_of_pow_lt hy.le (by norm_num : 0 < 8) h
  simpa using this

/-- `log10` is positive past one. -/
theorem log10_pos {y : ℝ} (hy : 1 < y) : 0 < log10 y :=
  Real.logb_pos (by norm_num) hy

/-- `calcFP` strictly decreases in the assumed coefficient (positive
`ΣK`, nonzero seat diameter). -/
theorem calcFP_strict_anti {sumK d a b : ℝ} (hs : 0 < sumK) (hd : d ≠ 0)
    (ha : 0 ≤ a) (hab : a < b) : calcFP sumK b d < calcFP sumK a d := by
  have hdd : 0 < d * d := by
    rcases lt_or_gt_of_ne hd with h | h
    · exact mul_pos_of_neg_of_neg h h
    · exact mul_pos h h
  have hq0 : 0 ≤ a / (d * d) := div_nonneg ha hdd.le
  have hquot : a / (d * d) < b / (d * d) := by
    exact div_lt_div_of_pos_right hab hdd
  have hsq : (a / (d * d)) ^ (2:ℕ) < (b / (d * d)) ^ (2:ℕ) :=
    pow_lt_pow_left hquot hq0 (by norm_num)
  have hcoef : 0 < sumK / CONSTANTS.N2 := by
    apply div_pos hs
    norm_num [CONSTANTS.N2]
  have hterm : sumK / CONSTANTS.N2 * (a / (d * d)) ^ (2:ℕ) <
      sumK / CONSTANTS.N2 * (b / (d * d)) ^ (2:ℕ) :=
    (mul_lt_mul_left hcoef).mpr hsq
  have h1a : (0:ℝ) < 1 + sumK / CONSTANTS.N2 * (a / (d * d)) ^ (2:ℕ) := by
    have : 0 ≤ sumK / CONSTANTS.N2 * (a / (d * d)) ^ (2:ℕ) := by positivity
    linarith
  have hsqrt : Real.sqrt (1 + sumK / CONSTANTS.N2 * (a / (d * d)) ^ (2:ℕ)) <
      Real.sqrt (1 + sumK / CONSTANTS.N2 * (b / (d * d)) ^ (2:ℕ)) :=
    Real.sqrt_lt_sqrt h1a.le (by linarith)
  have hpos : 0 < Real.sqrt (1 + sumK / CONSTANTS.N2 * (a / (d * d)) ^ (2:ℕ)) :=
    Real.sqrt_pos.mpr h1a
  rw [calcFP, calcFP]
  exact one_div_lt_one_div_of_lt hpos hsqrt

/-- The argument of the liquid transmission-loss frequency correction
exceeds one for positive frequencies. -/
theorem tl_arg_gt_one {a b : ℝ} (ha : 0 < a) (hb : 0 < b) :
    1 < a / b + (b / a) ^ (1.5 : ℝ) := by
  rcases le_or_lt 1 (a / b) with h | h
  · have : (0:ℝ) < (b / a) ^ (1.5 : ℝ) := Real.rpow_pos_of_pos (by positivity) _
    linarith
  · have hba : 1 < b / a := by
      rw [lt_div_iff ha]
      rw [div_lt_one hb] at h
      linarith
    have : (1:ℝ) < (b / a) ^ (1.5 : ℝ) := Real.one_lt_rpow_iff_of_pos (by positivity) |>.mpr
      (Or.inl ⟨hba, by norm_num⟩)
    have hpos : (0:ℝ) < a / b := by positivity
    linarith

/-! ## Claim theorems -/

/-- C7: when the seat diameter equals both pipe inner diameters within
0.1 mm, `calcSumK` returns exactly 0; and for every assumed coefficient,
seat diameter and recovery factor, `calcFP 0 Ci d = 1` and
`calcFLP FL 0 Ci d = FL` exactly. -/
theorem sumK_zero_case (d D1 D2 Ci FL : ℝ) :
    (|d - D1| < 0.1 → |d - D2| < 0.1 → calcSumK d D1 D2 = 0) ∧
    calcFP 0 Ci d = 1 ∧ calcFLP FL 0 Ci d = FL := by
  refine ⟨fun h1 h2 => ?_, ?_, ?_⟩
  · rw [calcSumK, if_pos ⟨h1, h2⟩]
  · rw [calcFP]
    rw [zero_div, zero_mul, add_zero, Real.sqrt_one, div_one]
  · rw [calcFLP]
    rw [mul_zero, zero_mul, add_zero, Real.sqrt_one, div_one]

/-- Witness for C7 at `d = D1 = D2 = 50`, `Ci = 13`, `FL = 0.9`. -/
theorem sumK_zero_case_witness :
    calcSumK 50 50 50 = 0 ∧ calcFP 0 13 50 = 1 ∧ calcFLP 0.9 0 13 50 = 0.9 :=
  ⟨(sumK_zero_case 50 50 50 13 0.9).1 (by norm_num) (by norm_num),
   (sumK_zero_case 50 50 50 13 0.9).2.1,
   (sumK_zero_case 50 50 50 13 0.9).2.2⟩

/-- C10: `convertPressureToKPaAbs` adds exactly 100 kPa for each gauge
unit and purely scales the absolute units, and this 100 kPa gauge offset
differs from the standard atmospheric constant `STD_PRESSURE = 101.325`
kPa used by the gas standard-state density and flow conversions. -/
theorem gauge_offset_vs_std_pressure (v rhoN P1 T1 : ℝ) :
    convertPressureToKPaAbs v PressureUnit.MPaG = 1000 * v + 100 ∧
    convertPressureToKPaAbs v PressureUnit.KPaG = v + 100 ∧
    convertPressureToKPaAbs v PressureUnit.barG = 100 * v + 100 ∧
    convertPressureToKPaAbs v PressureUnit.MPaA = 1000 * v ∧
    convertPressureToKPaAbs v PressureUnit.KPaA = v ∧
    convertPressureToKPaAbs v PressureUnit.barA = 100 * v ∧
    convertGasDensityToActual rhoN P1 T1 =
      rhoN * P1 * CONSTANTS.STD_TEMP / (CONSTANTS.STD_PRESSURE * T1) ∧
    convertGasFlowToNm3h v FlowUnit.m3h rhoN P1 T1 =
      v * P1 * CONSTANTS.STD_TEMP / (CONSTANTS.STD_PRESSURE * T1) ∧
    CONSTANTS.STD_PRESSURE = 101.325 ∧ (100:ℝ) ≠ CONSTANTS.STD_PRESSURE := by
  refine ⟨?_, ?_, ?_, ?_, ?_, ?_, rfl, rfl, rfl, ?_⟩
  · rw [convertPressureToKPaAbs]; ring
  · rw [convertPressureToKPaAbs]
  · rw [convertPressureToKPaAbs]; ring
  · rw [convertPressureToKPaAbs]; ring
  · rw [convertPressureToKPaAbs]
  · rw [convertPressureToKPaAbs]; ring
  · rw [CONSTANTS.STD_PRESSURE]; norm_num

/-- C8: the opening formulas return `NaN` (`none`) exactly on their
excluded parameter ranges (`m ≤ 0` or `R ≤ 1`; additionally `m ≤ 1` for
quick opening), and a `NaN` opening is flagged invalid (with a warning)
by `validateOpening` rather than replaced by a default. -/
theorem opening_nan_iff (m R : ℝ) :
    (calcEqualPercentageOpening m R = none ↔ m ≤ 0 ∨ R ≤ 1) ∧
    (calcLinearOpening m R = none ↔ m ≤ 0 ∨ R ≤ 1) ∧
    (calcQuickOpeningOpening m R = none ↔ m ≤ 1 ∨ R ≤ 1) ∧
    (validateOpening none).valid = false ∧
    (validateOpening none).warning.isSome = true := by
  refine ⟨?_, ?_, ?_, rfl, rfl⟩
  · by_cases h : m ≤ 0 ∨ R ≤ 1
    · simp [calcEqualPercentageOpening, h]
    · simp [calcEqualPercentageOpening, h]
  · by_cases h : m ≤ 0 ∨ R ≤ 1
    · simp [calcLinearOpening, h]
    · simp [calcLinearOpening, h]
  · by_cases h : m ≤ 1 ∨ R ≤ 1
    · simp [calcQuickOpeningOpening, h]
    · have hm : 1 < m := by
        rcases not_or.mp h with ⟨h1, _⟩
        exact not_le.mp h1
      have hR : 1 < R := by
        rcases not_or.mp h with ⟨_, h2⟩
        exact not_le.mp h2
      have hnn : 0 ≤ R * (m - 1) / ((R - 1) * m) := by
        apply div_nonneg
        · have : (0:ℝ) ≤ m - 1 := by linarith
          positivity
        · have h1 : (0:ℝ) ≤ R - 1 := by linarith
          have h2 : (0:ℝ) ≤ m := by linarith
          positivity
      simp [calcQuickOpeningOpening, h, not_lt.mpr hnn]

/-- The fitting resistance of the C2 input is the positive rational
`4563/8192`. -/
theorem c2SumK_eq : calcSumK 50 80 80 = 4563 / 8192 := by
  rw [calcSumK, if_neg (by norm_num)]
  rw [calcK1, calcK2, calcKB1, calcKB2]
  norm_num

/-- The C2 input is non-choked in pass 1. -/
theorem c2State_eq : steamPass1State c2Input = FlowState.NonChoked := by
  rw [steamPass1State, determineGasFlowState, if_pos]
  rw [c2Input, calcX, calcFgamma]
  norm_num

/-- Pass-1 steam Kv of the C2 input, in closed form. -/
theorem c2Pass1Kv_eq : steamPass1Kv c2Input = 100 / (3.16 * (83 / 108) * 20) := by
  rw [steamPass1Kv, if_neg (by rw [c2State_eq]; intro h; exact FlowState.noConfusion h)]
  show calcSteamKv 100 (calcY (calcX (200 - 100) 200) (calcFgamma 1.4) 0.72)
      (calcX (200 - 100) 200) 200 4 = _
  rw [calcSteamKv, calcY, calcX, calcFgamma, CONSTANTS.N6]
  rw [show (1:ℝ) - (200 - 100) / 200 / (3 * (1.4 / 1.4) * 0.72) = 83 / 108 by norm_num]
  rw [max_eq_left (by norm_num : (0.667:ℝ) ≤ 83 / 108)]
  rw [show ((200:ℝ) - 100) / 200 * 200 * 4 = 400 by norm_num]
  rw [show (400:ℝ) = 20 ^ 2 by norm_num, Real.sqrt_sq (by norm_num : (0:ℝ) ≤ 20)]

/-- C2 (counterexample): the steam path's piping factor is computed from
the fixed seed `ratedKv × 1.3`, and at this input it differs from the
piping factor that the claimed two-pass scheme (seeding from the pass-1
Kv, as the gas path does) would produce. -/
theorem steam_seed_counterexample :
    (calculateSteamKv c2Input).intermediate.FP =
      calcFP (calcSumK c2Input.d c2Input.D1 c2Input.D2) (c2Input.ratedKv * 1.3) c2Input.d ∧
    (calculateSteamKv c2Input).intermediate.FP ≠
      calcFP (calcSumK c2Input.d c2Input.D1 c2Input.D2) (steamPass1Kv c2Input) c2Input.d := by
  constructor
  · rfl
  · show calcFP (calcSumK 50 80 80) ((10:ℝ) * 1.3) 50 ≠
      calcFP (calcSumK 50 80 80) (steamPass1Kv c2Input) 50
    have hq : steamPass1Kv c2Input = 100 / (3.16 * (83 / 108) * 20) := c2Pass1Kv_eq
    have hlt : calcFP (calcSumK 50 80 80) ((10:ℝ) * 1.3) 50 <
        calcFP (calcSumK 50 80 80) (steamPass1Kv c2Input) 50 := by
      rw [hq]
      apply calcFP_strict_anti
      · rw [c2SumK_eq]; norm_num
      · norm_num
      · positivity
      · rw [div_lt_iff₀ (by norm_num : (0:ℝ) < 3.16 * (83 / 108) * 20)]
        norm_num
    exact ne_of_lt hlt

/-- C2 (amended): the steam path is single-pass — its `FP` and `xTP` use
the fixed assumed coefficient `Ci = ratedKv × 1.3` — while the gas path
seeds its second pass from the pass-1 Kv. -/
theorem steam_fixed_seed_amended (p : SteamKvParams) (q : GasKvParams) :
    (calculateSteamKv p).intermediate.FP =
      calcFP (calcSumK p.d p.D1 p.D2) (p.ratedKv * 1.3) p.d ∧
    (calculateSteamKv p).intermediate.xTP =
      calcXTP p.xT (calcFP (calcSumK p.d p.D1 p.D2) (p.ratedKv * 1.3) p.d)
        (0.5 * (1 - (p.d / p.D1) ^ (2:ℕ)) ^ (2:ℕ) + (1 - (p.d / p.D1) ^ (4:ℕ)))
        (p.ratedKv * 1.3) p.d ∧
    (calculateGasKv q).intermediate.FP =
      calcFP (calcSumK q.d q.D1 q.D2) (gasPass1Kv q) q.d :=
  ⟨rfl, rfl, rfl⟩

/-- C3: the gas path is exactly two explicit stages.  Pass 2 computes
`FP` and `xTP = xT/FP²/(1+xT·(K1+KB1)/N5·(C/d²)²)` from the pass-1 Kv as
the assumed coefficient `C`, and recomputes the expansion factor from
`xTP` when fittings are present; when the valve diameter equals both pipe
inner diameters (the orchestrator passes `FR = 1` for gas), the returned
Kv and regime are the pass-1 values. -/
theorem gas_two_pass (p : GasKvParams) :
    (calculateGasKv p).intermediate.FP =
      calcFP (calcSumK p.d p.D1 p.D2) (gasPass1Kv p) p.d ∧
    (calculateGasKv p).intermediate.xTP =
      calcXTP p.xT ((calculateGasKv p).intermediate.FP)
        (0.5 * (1 - (p.d / p.D1) ^ (2:ℕ)) ^ (2:ℕ) + (1 - (p.d / p.D1) ^ (4:ℕ)))
        (gasPass1Kv p) p.d ∧
    (calculateGasKv p).intermediate.Y =
      (if p.d ≠ p.D1 ∨ p.d ≠ p.D2 then
        calcY ((calculateGasKv p).intermediate.x) ((calculateGasKv p).intermediate.Fgamma)
          ((calculateGasKv p).intermediate.xTP)
       else
        calcY ((calculateGasKv p).intermediate.x) ((calculateGasKv p).intermediate.Fgamma)
          p.xT) ∧
    (p.FR = 1 → p.d = p.D1 → p.d = p.D2 →
      (calculateGasKv p).kv = gasPass1Kv p ∧
      (calculateGasKv p).flowState = gasPass1State p) := by
  refine ⟨rfl, rfl, rfl, fun hfr h1 h2 => ?_⟩
  have hnlt : ¬ (p.FR < 1 ∧
      calcGasKvLaminar p.Qn p.FR p.M p.T1 (p.P1 - p.P2) p.P1 p.P2 ≠ 0) := by
    intro hc
    rw [hfr] at hc
    exact lt_irrefl 1 hc.1
  have hnf : ¬ (p.d ≠ p.D1 ∨ p.d ≠ p.D2) := by
    push_neg
    exact ⟨h1, h2⟩
  have hcases : determineGasFlowState (calcX (p.P1 - p.P2) p.P1) (calcFgamma p.gamma) p.xT =
      FlowState.NonChoked ∨
      determineGasFlowState (calcX (p.P1 - p.P2) p.P1) (calcFgamma p.gamma) p.xT =
      FlowState.Choked := by
    cases determineGasFlowState (calcX (p.P1 - p.P2) p.P1) (calcFgamma p.gamma) p.xT
    · exact Or.inr rfl
    · exact Or.inl rfl
  constructor
  · show (calculateGasKv p).kv = gasPass1Kv p
    simp only [calculateGasKv, gasPass1Kv, gasPass1State]
    rw [if_neg hnlt, if_pos hnf]
    rcases hcases with hs | hs <;> simp [hs]
  · show (calculateGasKv p).flowState = gasPass1State p
    simp only [calculateGasKv, gasPass1State]
    rw [if_neg hnlt, if_pos hnf]
    rcases hcases with hs | hs <;> simp [hs]

/-- Witness for C3 at a no-fitting gas input. -/
theorem gas_two_pass_witness :
    (calculateGasKv c3Input).kv = gasPass1Kv c3Input ∧
    (calculateGasKv c3Input).flowState = gasPass1State c3Input :=
  (gas_two_pass c3Input).2.2.2 rfl rfl rfl

/-- C6: the gas noise model always returns a level within `[30, 150]`
dBA, and the liquid noise model does so for every input that reaches the
main path (flow supplied, not classified as Flashing). -/
theorem noise_clamp (g l : NoiseInput)
    (h1 : LiquidNoise.lnMFlow l ≠ 0)
    (h2 : LiquidNoise.lnCavState l ≠ CavitationState.Flashing) :
    (30 ≤ (GasNoise.calculateGasNoise g).noiseLevel ∧
      (GasNoise.calculateGasNoise g).noiseLevel ≤ 150) ∧
    ∃ r, LiquidNoise.calculateLiquidNoise l = some r ∧
      30 ≤ r.noiseLevel ∧ r.noiseLevel ≤ 150 := by
  constructor
  · exact clampRound_bounds (GasNoise.gnLpe g)
  · rw [LiquidNoise.calculateLiquidNoise, if_neg h1, if_neg h2]
    exact ⟨_, rfl, clampRound_bounds (LiquidNoise.lnLpe l)⟩

/-- The C6 liquid witness resolves a nonzero mass flow. -/
theorem liquidNoiseWitnessMFlow : LiquidNoise.lnMFlow liquidNoiseWitnessInput ≠ 0 := by
  rw [LiquidNoise.lnMFlow, jsOrR]
  norm_num [liquidNoiseWitnessInput]

/-- The C6 liquid witness classifies as `NoCavitation`. -/
theorem liquidNoiseWitnessCavState :
    LiquidNoise.lnCavState liquidNoiseWitnessInput = CavitationState.NoCavitation := by
  have hxf : LiquidNoise.lnXF liquidNoiseWitnessInput = 1 / 5 := by
    rw [LiquidNoise.lnXF, LiquidNoise.lnPv]
    norm_num [liquidNoiseWitnessInput]
  have hxfz : LiquidNoise.lnXFz liquidNoiseWitnessInput = 1 / 2 := by
    rw [LiquidNoise.lnXFz, jsOr]
    norm_num [liquidNoiseWitnessInput]
  have hxfzp : LiquidNoise.lnXFzp liquidNoiseWitnessInput = 1 / 2 := by
    rw [LiquidNoise.lnXFzp, hxfz]
    rw [show (6e5 / ((liquidNoiseWitnessInput.P1) * 1000) : ℝ) = 1 by norm_num [liquidNoiseWitnessInput]]
    rw [Real.one_rpow]
    norm_num
  rw [LiquidNoise.lnCavState, hxf, hxfzp, LiquidNoise.determineCavitationState,
    if_pos (by norm_num : (1:ℝ)/5 ≤ 1/2)]

/-- Witness for C6 at concrete gas and liquid noise inputs. -/
theorem noise_clamp_witness :
    (30 ≤ (GasNoise.calculateGasNoise c6GasInput).noiseLevel ∧
      (GasNoise.calculateGasNoise c6GasInput).noiseLevel ≤ 150) ∧
    ∃ r, LiquidNoise.calculateLiquidNoise liquidNoiseWitnessInput = some r ∧
      30 ≤ r.noiseLevel ∧ r.noiseLevel ≤ 150 :=
  noise_clamp c6GasInput liquidNoiseWitnessInput liquidNoiseWitnessMFlow
    (by rw [liquidNoiseWitnessCavState]; intro h; exact CavitationState.noConfusion h)

/-- Reduction of `calculate` on the gas branch. -/
theorem calculate_eq_gas {i : KvInput} {nu : ℝ} (hv : kcKinViscOpt i = some nu)
    (hft : i.fluidType = FluidType.Gas) : calculate i = some (kcGasResult i nu) := by
  simp only [calculate, hv, hft]

/-- Reduction of `calculate` on the liquid branch. -/
theorem calculate_eq_liquid {i : KvInput} {nu Q : ℝ} (hv : kcKinViscOpt i = some nu)
    (hft : i.fluidType = FluidType.Liquid)
    (hq : convertLiquidFlowToM3h i.flowRate i.flowUnit (kcDensityKgM3 i) = some Q) :
    calculate i = some (kcLiquidResult i nu Q) := by
  simp only [calculate, hv, hft, hq, Option.map_some']

/-- Reduction of `calculate` on the steam branch. -/
theorem calculate_eq_steam {i : KvInput} {nu W : ℝ} (hv : kcKinViscOpt i = some nu)
    (hft : i.fluidType = FluidType.Steam)
    (hw : convertSteamFlowToKgh i.flowRate i.flowUnit (kcDensityKgM3 i) = some W) :
    calculate i = some (kcSteamResult i nu W) := by
  simp only [calculate, hv, hft, hw, Option.map_some']

/-- A returned result's error list is the pressure-validation list, plus
the two liquid-specific checks on the liquid branch. -/
theorem calculate_errors {i : KvInput} {r : KvResult} (h : calculate i = some r) :
    r.errors = kcBaseErrors i ++ kcLiquidErrors i ∨ r.errors = kcBaseErrors i := by
  rcases hv : kcKinViscOpt i with _ | nu
  · rw [calculate, hv] at h
    exact absurd h (by simp)
  · rcases hft : i.fluidType with _ | _ | _
    · rcases hq : convertLiquidFlowToM3h i.flowRate i.flowUnit (kcDensityKgM3 i) with _ | Q
      · rw [calculate, hv, hft, hq] at h
        exact absurd h (by simp)
      · left
        have := calculate_eq_liquid hv hft hq
        rw [this] at h
        rw [← Option.some_inj.mp h]
        rfl
    · right
      have := calculate_eq_gas hv hft
      rw [this] at h
      rw [← Option.some_inj.mp h]
      rfl
    · rcases hw : convertSteamFlowToKgh i.flowRate i.flowUnit (kcDensityKgM3 i) with _ | W
      · rw [calculate, hv, hft, hw] at h
        exact absurd h (by simp)
      · right
        have := calculate_eq_steam hv hft hw
        rw [this] at h
        rw [← Option.some_inj.mp h]
        rfl

/-- C9 (amended): `calculate` validates only the pressure invariants
(`P1abs > 0`, `P2abs ≥ 0`, `ΔP > 0`) and, on the liquid branch, the
saturation-temperature and vapor-pressure checks; every reported error is
one of those five messages, so violations of `ratedKv > 0`,
`rangeability > 1` or `0 < FL ≤ 1` are never reported as errors. -/
theorem pressure_validation_amended (i : KvInput) (r : KvResult)
    (h : calculate i = some r) :
    ((kcP1Abs i ≤ 0 ↔ "Inlet pressure must be greater than 0" ∈ r.errors) ∧
     (kcP2Abs i < 0 ↔ "Outlet pressure cannot be negative" ∈ r.errors) ∧
     (kcDeltaP i ≤ 0 ↔ "Inlet pressure must be greater than outlet pressure" ∈ r.errors)) ∧
    ∀ s ∈ r.errors,
      s ∈ (["Inlet pressure must be greater than 0",
            "Outlet pressure cannot be negative",
            "Inlet pressure must be greater than outlet pressure",
            "Medium temperature is above saturation temperature",
            "Inlet pressure is below vapor pressure"] : List String) := by
  have hbase1 : "Inlet pressure must be greater than 0" ∈ kcBaseErrors i ↔ kcP1Abs i ≤ 0 := by
    rw [kcBaseErrors]
    by_cases h1 : kcP1Abs i ≤ 0 <;> by_cases h2 : kcP2Abs i < 0 <;>
      by_cases h3 : kcDeltaP i ≤ 0 <;> simp [h1, h2, h3]
  have hbase2 : "Outlet pressure cannot be negative" ∈ kcBaseErrors i ↔ kcP2Abs i < 0 := by
    rw [kcBaseErrors]
    by_cases h1 : kcP1Abs i ≤ 0 <;> by_cases h2 : kcP2Abs i < 0 <;>
      by_cases h3 : kcDeltaP i ≤ 0 <;> simp [h1, h2, h3]
  have hbase3 : "Inlet pressure must be greater than outlet pressure" ∈ kcBaseErrors i ↔
      kcDeltaP i ≤ 0 := by
    rw [kcBaseErrors]
    by_cases h1 : kcP1Abs i ≤ 0 <;> by_cases h2 : kcP2Abs i < 0 <;>
      by_cases h3 : kcDeltaP i ≤ 0 <;> simp [h1, h2, h3]
  have hliq1 : ¬ "Inlet pressure must be greater than 0" ∈ kcLiquidErrors i := by
    rw [kcLiquidErrors]
    by_cases h4 : (kcSatTemp i).elim False (fun st => kcTempCelsius i > st) <;>
      by_cases h5 : kcP1Abs i ≤ kcPv i <;> simp [h4, h5]
  have hliq2 : ¬ "Outlet pressure cannot be negative" ∈ kcLiquidErrors i := by
    rw [kcLiquidErrors]
    by_cases h4 : (kcSatTemp i).elim False (fun st => kcTempCelsius i > st) <;>
      by_cases h5 : kcP1Abs i ≤ kcPv i <;> simp [h4, h5]
  have hliq3 : ¬ "Inlet pressure must be greater than outlet pressure" ∈ kcLiquidErrors i := by
    rw [kcLiquidErrors]
    by_cases h4 : (kcSatTemp i).elim False (fun st => kcTempCelsius i > st) <;>
      by_cases h5 : kcP1Abs i ≤ kcPv i <;> simp [h4, h5]
  have hsub : ∀ s, s ∈ kcBaseErrors i ++ kcLiquidErrors i →
      s ∈ (["Inlet pressure must be greater than 0",
            "Outlet pressure cannot be negative",
            "Inlet pressure must be greater than outlet pressure",
            "Medium temperature is above saturation temperature",
            "Inlet pressure is below vapor pressure"] : List String) := by
    intro s hs
    simp only [List.mem_cons, List.not_mem_nil, or_false]
    rcases List.mem_append.mp hs with hs | hs
    · rw [kcBaseErrors] at hs
      by_cases h1 : kcP1Abs i ≤ 0 <;> by_cases h2 : kcP2Abs i < 0 <;>
        by_cases h3 : kcDeltaP i ≤ 0 <;> simp [h1, h2, h3] at hs <;> tauto
    · rw [kcLiquidErrors] at hs
      by_cases h4 : (kcSatTemp i).elim False (fun st => kcTempCelsius i > st) <;>
        by_cases h5 : kcP1Abs i ≤ kcPv i <;> simp [h4, h5] at hs <;> tauto
  rcases calculate_errors h with he | he <;> rw [he]
  · refine ⟨⟨?_, ?_, ?_⟩, hsub⟩
    · rw [iff_comm]
      constructor
      · intro hm
        rcases List.mem_append.mp hm with hm | hm
        · exact hbase1.mp hm
        · exact absurd hm hliq1
      · intro hc
        exact List.mem_append.mpr (Or.inl (hbase1.mpr hc))
    · rw [iff_comm]
      constructor
      · intro hm
        rcases List.mem_append.mp hm with hm | hm
        · exact hbase2.mp hm
        · exact absurd hm hliq2
      · intro hc
        exact List.mem_append.mpr (Or.inl (hbase2.mpr hc))
    · rw [iff_comm]
      constructor
      · intro hm
        rcases List.mem_append.mp hm with hm | hm
        · exact hbase3.mp hm
        · exact absurd hm hliq3
      · intro hc
        exact List.mem_append.mpr (Or.inl (hbase3.mpr hc))
  · refine ⟨⟨hbase1.symm, hbase2.symm, hbase3.symm⟩, fun s hs => ?_⟩
    exact hsub s (List.mem_append.mpr (Or.inl hs))

/-- The default-viscosity path taken by the C9 inputs. -/
theorem c9KinVisc_eq : kcKinViscOpt c9Input =
    some (CONSTANTS.DEFAULT_VISCOSITY / 1000 / kcDensityKgM3 c9Input) := by
  rw [kcKinViscOpt, if_neg]
  simp [c9Input]

/-- C9 (counterexample): for a gas input whose rated Kv is negative —
violating the `ratedKv > 0` input invariant — `calculate` returns a
result with an empty validation-error list: the violation is not
reported. -/
theorem validation_gap_counterexample :
    ∃ r, calculate c9Input = some r ∧ r.errors = [] ∧ c9Input.ratedKv ≤ 0 := by
  refine ⟨kcGasResult c9Input _, calculate_eq_gas c9KinVisc_eq rfl, ?_, by norm_num [c9Input]⟩
  show kcBaseErrors c9Input = []
  rw [kcBaseErrors, if_neg, if_neg, if_neg]
  · rfl
  · norm_num [kcDeltaP, kcP1Abs, kcP2Abs, convertPressureToKPaAbs, c9Input]
  · norm_num [kcP2Abs, convertPressureToKPaAbs, c9Input]
  · norm_num [kcP1Abs, convertPressureToKPaAbs, c9Input]

/-- Witness for the amended C9: a violated pressure invariant is
reported in the returned error list. -/
theorem pressure_validation_amended_witness :
    ∃ r, calculate c9BadInput = some r ∧
      "Inlet pressure must be greater than 0" ∈ r.errors := by
  have hv : kcKinViscOpt c9BadInput =
      some (CONSTANTS.DEFAULT_VISCOSITY / 1000 / kcDensityKgM3 c9BadInput) := by
    rw [kcKinViscOpt, if_neg]
    simp [c9BadInput]
  have hr := calculate_eq_gas hv rfl
  exact ⟨_, hr, ((pressure_validation_amended c9BadInput _ hr).1.1).mp
    (by norm_num [kcP1Abs, convertPressureToKPaAbs, c9BadInput])⟩

/-- C1: for every `KvCalculator.calculate` input on which the computed
Reynolds correction factor `FR` is a nonzero number below one (over a
well-posed input: positive pressure drop, density and flow — exactly the
region where the JavaScript computation is free of `NaN`), the selected
formula is the laminar variant of the respective fluid, regardless of the
choked/non-choked classification.  For gas and steam the orchestrator
never passes `FR` (it stays `1`), so the hypothesis `FR < 1` can only be
realised on the liquid path. -/
theorem laminar_override_selection (i : KvInput) (r : KvResult)
    (hr : calculate i = some r)
    (hdp : 0 < kcDeltaP i)
    (hrho : 0 < kcDensityKgM3 i)
    (hq : ∀ q, r.intermediate.volumeFlowM3h = some q → 0 < q)
    (hfr0 : r.intermediate.FR ≠ 0)
    (hfr : r.intermediate.FR < 1) :
    r.usedFormula = "C5" ∨ r.usedFormula = "Gas laminar flow" ∨
      r.usedFormula = "Steam laminar flow" := by
  rcases hv : kcKinViscOpt i with _ | nu
  · rw [calculate, hv] at hr
    exact absurd hr (by simp)
  rcases hft : i.fluidType with _ | _ | _
  · -- Liquid branch
    rcases hqc : convertLiquidFlowToM3h i.flowRate i.flowUnit (kcDensityKgM3 i) with _ | Q
    · rw [calculate, hv, hft, hqc] at hr
      exact absurd hr (by simp)
    have hre : r = kcLiquidResult i nu Q := by
      have := calculate_eq_liquid hv hft hqc
      rw [this] at hr
      exact (Option.some_inj.mp hr).symm
    subst hre
    have hQ : 0 < Q := hq Q rfl
    have hfr' : (kcReynolds i nu Q).FR < 1 := hfr
    have hfr0' : (kcReynolds i nu Q).FR ≠ 0 := hfr0
    left
    show (kcLiquidKv i nu Q).usedFormula = "C5"
    rw [kcDeltaP] at hdp
    have hC5 : calcC5 Q ((kcReynolds i nu Q).FR)
        (kcDensityKgM3 i / CONSTANTS.WATER_DENSITY) (kcP1Abs i - kcP2Abs i) ≠ 0 := by
      rw [calcC5]
      apply mul_ne_zero
      · apply div_ne_zero (ne_of_gt hQ)
        apply mul_ne_zero _ hfr0'
        norm_num [CONSTANTS.N1]
      · rw [Real.sqrt_ne_zero']
        apply div_pos _ hdp
        apply div_pos hrho
        norm_num [CONSTANTS.WATER_DENSITY]
    simp only [kcLiquidKv, calculateLiquidKv]
    rw [if_pos ⟨hfr', hC5⟩]
  · -- Gas branch: FR is the constant 1
    have hre : r = kcGasResult i nu := by
      have := calculate_eq_gas hv hft
      rw [this] at hr
      exact (Option.some_inj.mp hr).symm
    subst hre
    have h1 : (kcGasResult i nu).intermediate.FR = 1 := rfl
    rw [h1] at hfr
    exact absurd hfr (lt_irrefl 1)
  · -- Steam branch: FR is the constant 1
    rcases hw : convertSteamFlowToKgh i.flowRate i.flowUnit (kcDensityKgM3 i) with _ | W
    · rw [calculate, hv, hft, hw] at hr
      exact absurd hr (by simp)
    have hre : r = kcSteamResult i nu W := by
      have := calculate_eq_steam hv hft hw
      rw [this] at hr
      exact (Option.some_inj.mp hr).symm
    subst hre
    have h1 : (kcSteamResult i nu W).intermediate.FR = 1 := rfl
    rw [h1] at hfr
    exact absurd hfr (lt_irrefl 1)

/-- The C1 witness resolves its supplied kinematic viscosity. -/
theorem c1KinVisc_eq : kcKinViscOpt c1Input = some 1 := by
  rw [kcKinViscOpt, if_pos]
  · rfl
  · simp [c1Input]

/-- Valve diameter of the C1 witness. -/
theorem c1D_eq : kcD c1Input = 50 := by
  rw [kcD, jsOr]
  simp [c1Input]

/-- Upstream inner diameter of the C1 witness. -/
theorem c1D1_eq : kcD1 c1Input = 50 := by
  rw [kcD1, if_pos]
  · exact c1D_eq
  · exact Or.inl rfl

/-- Downstream inner diameter of the C1 witness. -/
theorem c1D2_eq : kcD2 c1Input = 50 := by
  rw [kcD2, if_pos]
  · exact c1D_eq
  · exact Or.inl rfl

/-- Fitting resistance of the C1 witness. -/
theorem c1SumK_eq : kcSumKv c1Input = 0 := by
  rw [kcSumKv, c1D_eq, c1D1_eq, c1D2_eq, calcSumK, if_pos]
  norm_num

/-- Initial Kv estimate of the C1 witness. -/
theorem c1CInitial_eq : kcCInitial c1Input 0.2 = 1 := by
  rw [kcCInitial]
  rw [show calcRelativeDensity (kcDensityKgM3 c1Input) / kcDeltaP c1Input = (1/2) ^ (2:ℕ) by
    rw [calcRelativeDensity, kcDeltaP]
    show (1000:ℝ) / CONSTANTS.WATER_DENSITY / ((104:ℝ) - 100) = (1/2) ^ (2:ℕ)
    norm_num [CONSTANTS.WATER_DENSITY]]
  rw [Real.sqrt_sq (by norm_num : (0:ℝ) ≤ 1/2)]
  norm_num [CONSTANTS.N1]

/-- Reynolds parameters of the C1 witness in explicit form. -/
theorem c1Reynolds_eq : kcReynolds c1Input 1 0.2 =
    calculateReynolds
      { Q := 0.2, nu := 1, C := 1, FL := 1, Fd := 1, d := 50, D := 50, sumK := some 0 } := by
  rw [kcReynolds, c1CInitial_eq, c1D_eq, c1D1_eq, c1SumK_eq]
  rfl

/-- Reynolds number of the C1 witness: `0.01414` times the quarter-power
factor `t = (10001/10000)^(1/4)`. -/
theorem c1Rev_eq : calcReynoldsNumber 1 0.2 1 1 1 50 =
    0.0707 * 1 * 0.2 * ((10001/10000 : ℝ) ^ (0.25 : ℝ)) := by
  rw [calcReynoldsNumber, CONSTANTS.N4, CONSTANTS.N2]
  rw [show (1:ℝ) * 1 * 1 * 1 / (0.0016 * 50 ^ (4:ℕ)) + 1 = 10001/10000 by norm_num]
  rw [show (1:ℝ) * 1 = 1 by norm_num, Real.sqrt_one]
  ring

/-- Lower bound on the quarter-power factor. -/
theorem c1T_lo : (1:ℝ) ≤ (10001/10000 : ℝ) ^ (0.25 : ℝ) := by
  have := Real.rpow_le_rpow (by norm_num : (0:ℝ) ≤ 1)
    (by norm_num : (1:ℝ) ≤ 10001/10000) (by norm_num : (0:ℝ) ≤ 0.25)
  rwa [Real.one_rpow] at this

/-- Upper bound on the quarter-power factor. -/
theorem c1T_hi : (10001/10000 : ℝ) ^ (0.25 : ℝ) ≤ 2 := by
  have h16 : ((16:ℝ)) ^ (0.25 : ℝ) = 2 := by
    rw [show (16:ℝ) = 2 ^ (4:ℕ) by norm_num, ← Real.rpow_natCast 2 4,
      ← Real.rpow_mul (by norm_num : (0:ℝ) ≤ 2)]
    norm_num
  calc (10001/10000 : ℝ) ^ (0.25 : ℝ)
      ≤ (16:ℝ) ^ (0.25 : ℝ) :=
        Real.rpow_le_rpow (by norm_num) (by norm_num) (by norm_num)
  _ = 2 := h16

/-- The computed Reynolds correction factor of the C1 witness, in closed
form. -/
theorem c1FR_eq : (kcReynolds c1Input 1 0.2).FR =
    0.026 / 1 * Real.sqrt (CONSTANTS.N2 / ((1:ℝ) / (50 * 50)) ^ (2:ℕ) *
      (0.0707 * 1 * 0.2 * ((10001/10000 : ℝ) ^ (0.25 : ℝ)))) := by
  rw [c1Reynolds_eq, calculateReynolds]
  have hrev : calcReynoldsNumber 1 0.2 1 1 1 50 =
      0.0707 * 1 * 0.2 * ((10001/10000 : ℝ) ^ (0.25 : ℝ)) := c1Rev_eq
  rw [if_neg]
  · rw [hrev]
    show calcFR2 1 (if (0:ℝ) < 0 then calcLambda2 0 1 50 else calcLambda 1 50) _ = _
    rw [if_neg (lt_irrefl (0:ℝ)), calcFR2, calcLambda]
  · rw [hrev, CONSTANTS.TURBULENT_RE]
    intro hcon
    have ht2 := c1T_hi
    nlinarith [ht2]

/-- The Reynolds correction factor of the C1 witness is positive. -/
theorem c1FR_pos : 0 < (kcReynolds c1Input 1 0.2).FR := by
  rw [c1FR_eq]
  have ht1 := c1T_lo
  apply mul_pos (by norm_num)
  rw [Real.sqrt_pos]
  apply mul_pos
  · norm_num [CONSTANTS.N2]
  · nlinarith [ht1]

/-- The Reynolds correction factor of the C1 witness is below one. -/
theorem c1FR_lt_one : (kcReynolds c1Input 1 0.2).FR < 1 := by
  rw [c1FR_eq]
  have ht2 := c1T_hi
  have harg : CONSTANTS.N2 / ((1:ℝ) / (50 * 50)) ^ (2:ℕ) *
      (0.0707 * 1 * 0.2 * ((10001/10000 : ℝ) ^ (0.25 : ℝ))) ≤ 289 := by
    rw [CONSTANTS.N2]
    nlinarith [ht2, c1T_lo]
  have hsqrt : Real.sqrt (CONSTANTS.N2 / ((1:ℝ) / (50 * 50)) ^ (2:ℕ) *
      (0.0707 * 1 * 0.2 * ((10001/10000 : ℝ) ^ (0.25 : ℝ)))) ≤ 17 := by
    calc Real.sqrt _ ≤ Real.sqrt 289 := Real.sqrt_le_sqrt harg
    _ = 17 := by
      rw [show (289:ℝ) = 17 ^ 2 by norm_num, Real.sqrt_sq (by norm_num : (0:ℝ) ≤ 17)]
  have hnn : (0:ℝ) ≤ Real.sqrt (CONSTANTS.N2 / ((1:ℝ) / (50 * 50)) ^ (2:ℕ) *
      (0.0707 * 1 * 0.2 * ((10001/10000 : ℝ) ^ (0.25 : ℝ)))) := Real.sqrt_nonneg _
  nlinarith [hsqrt, hnn]

/-- Witness for C1: on the viscous liquid input the computed `FR` is a
nonzero number below one and the C5 laminar formula is selected. -/
theorem laminar_override_selection_witness :
    ∃ r, calculate c1Input = some r ∧
      (r.usedFormula = "C5" ∨ r.usedFormula = "Gas laminar flow" ∨
        r.usedFormula = "Steam laminar flow") := by
  have hq : convertLiquidFlowToM3h c1Input.flowRate c1Input.flowUnit (kcDensityKgM3 c1Input) =
      some 0.2 := rfl
  have hr := calculate_eq_liquid c1KinVisc_eq rfl hq
  refine ⟨_, hr, ?_⟩
  apply laminar_override_selection c1Input _ hr
  · show (0:ℝ) < kcP1Abs c1Input - kcP2Abs c1Input
    show (0:ℝ) < (104:ℝ) - 100
    norm_num
  · show (0:ℝ) < (1000:ℝ)
    norm_num
  · intro q hsq
    have : (0.2:ℝ) = q := Option.some_inj.mp hsq
    rw [← this]
    norm_num
  · exact ne_of_gt c1FR_pos
  · exact c1FR_lt_one

/-- C5 (amended): for every liquid noise input that reaches the main
path (flow supplied, not Flashing), the level before clamping is
`Lpe = Lpi + TL − 10·log10((Di+2·tp+2 mm)/(Di+2·tp))` — a pipe-size
dependent distance correction, not a fixed +3 dB term — with the
cavitation-specific transmission-loss correction applied when
cavitating, and the returned level is the clamped `Lpe` rounded to
0.1 dB. -/
theorem liquid_noise_level_amended (i : NoiseInput)
    (h1 : LiquidNoise.lnMFlow i ≠ 0)
    (h2 : LiquidNoise.lnCavState i ≠ CavitationState.Flashing) :
    ∃ r, LiquidNoise.calculateLiquidNoise i = some r ∧
      r.intermediate.Lpe =
        r.intermediate.Lpi + r.intermediate.TL - LiquidNoise.lnDistCorr i ∧
      r.intermediate.TL =
        (if LiquidNoise.lnIsCavitation i then
          LiquidNoise.calculateCavitationTransmissionLoss (LiquidNoise.lnTLturb i)
            (LiquidNoise.lnFpTurb i) (LiquidNoise.lnFpCav i) (LiquidNoise.lnEtaTurb i)
            (LiquidNoise.lnEtaCav i)
        else LiquidNoise.lnTLturb i) ∧
      r.noiseLevel = jsRound (max NOISE_CONSTANTS.MIN_NOISE
        (min NOISE_CONSTANTS.MAX_NOISE r.intermediate.Lpe) * 10) / 10 := by
  rw [LiquidNoise.calculateLiquidNoise, if_neg h1, if_neg h2]
  exact ⟨_, rfl, rfl, rfl, rfl⟩

/-- Witness for the amended C5 at the concrete non-flashing input. -/
theorem liquid_noise_level_amended_witness :
    ∃ r, LiquidNoise.calculateLiquidNoise liquidNoiseWitnessInput = some r ∧
      r.intermediate.Lpe = r.intermediate.Lpi + r.intermediate.TL -
        LiquidNoise.lnDistCorr liquidNoiseWitnessInput ∧
      r.intermediate.TL =
        (if LiquidNoise.lnIsCavitation liquidNoiseWitnessInput then
          LiquidNoise.calculateCavitationTransmissionLoss
            (LiquidNoise.lnTLturb liquidNoiseWitnessInput)
            (LiquidNoise.lnFpTurb liquidNoiseWitnessInput)
            (LiquidNoise.lnFpCav liquidNoiseWitnessInput)
            (LiquidNoise.lnEtaTurb liquidNoiseWitnessInput)
            (LiquidNoise.lnEtaCav liquidNoiseWitnessInput)
        else LiquidNoise.lnTLturb liquidNoiseWitnessInput) ∧
      r.noiseLevel = jsRound (max NOISE_CONSTANTS.MIN_NOISE
        (min NOISE_CONSTANTS.MAX_NOISE r.intermediate.Lpe) * 10) / 10 :=
  liquid_noise_level_amended liquidNoiseWitnessInput liquidNoiseWitnessMFlow
    (by rw [liquidNoiseWitnessCavState]; intro h; exact CavitationState.noConfusion h)

/-- The witness input is not cavitating. -/
theorem liquidNoiseWitnessNotCav :
    ¬ LiquidNoise.lnIsCavitation liquidNoiseWitnessInput := by
  rw [LiquidNoise.lnIsCavitation, liquidNoiseWitnessCavState]
  intro h
  exact h.1 rfl

/-- The clamped peak frequency of the witness input is positive. -/
theorem liquidNoiseWitnessFp_pos :
    0 < LiquidNoise.lnFpValid liquidNoiseWitnessInput := by
  rw [LiquidNoise.lnFpValid]
  exact lt_of_lt_of_le (by norm_num) (le_max_left _ _)

/-- The transmission loss of the witness input is negative. -/
theorem liquidNoiseWitnessTL_neg :
    LiquidNoise.lnTL liquidNoiseWitnessInput < 0 := by
  rw [LiquidNoise.lnTL, if_neg liquidNoiseWitnessNotCav, LiquidNoise.lnTLturb]
  simp only [LiquidNoise.calculateTransmissionLoss]
  have hA : (1:ℝ) < NOISE_CONSTANTS.CP_PIPE *
      getPipeMaterialDensity (LiquidNoise.lnPipeMaterial liquidNoiseWitnessInput) *
      (liquidNoiseWitnessInput.tp / 1000) /
      (NOISE_CONSTANTS.RHO_0 * NOISE_CONSTANTS.C0 * (liquidNoiseWitnessInput.Di / 1000)) := by
    rw [show getPipeMaterialDensity (LiquidNoise.lnPipeMaterial liquidNoiseWitnessInput) =
      NOISE_CONSTANTS.STEEL_DENSITY from rfl]
    norm_num [NOISE_CONSTANTS.CP_PIPE, NOISE_CONSTANTS.RHO_0, NOISE_CONSTANTS.C0,
      liquidNoiseWitnessInput, NOISE_CONSTANTS.STEEL_DENSITY]
  have hfr_pos : (0:ℝ) < NOISE_CONSTANTS.CP_PIPE /
      (Real.pi * (liquidNoiseWitnessInput.Di / 1000)) := by
    apply div_pos
    · norm_num [NOISE_CONSTANTS.CP_PIPE]
    · apply mul_pos Real.pi_pos
      norm_num [liquidNoiseWitnessInput]
  have hB := tl_arg_gt_one hfr_pos liquidNoiseWitnessFp_pos
  have l1 := log10_pos hA
  have l2 := log10_pos hB
  linarith [l1, l2]

/-- The 1 m distance correction of the witness input is positive. -/
theorem liquidNoiseWitnessDC_pos :
    0 < LiquidNoise.lnDistCorr liquidNoiseWitnessInput := by
  rw [LiquidNoise.lnDistCorr]
  have : (1:ℝ) < (liquidNoiseWitnessInput.Di / 1000 +
      2 * (liquidNoiseWitnessInput.tp / 1000) + 0.002) /
      (liquidNoiseWitnessInput.Di / 1000 + 2 * (liquidNoiseWitnessInput.tp / 1000)) := by
    norm_num [liquidNoiseWitnessInput]
  have := log10_pos this
  linarith

/-- C5 (counterexample): at a concrete non-flashing liquid noise input,
the level before clamping produced by `calculateLiquidNoise` differs from
`calculateExternalNoiseLevel Lpi TL = Lpi − TL + 3`, the fixed +3 dB
helper the claim describes (which the main path never calls). -/
theorem liquid_noise_distance_counterexample :
    ∃ r, LiquidNoise.calculateLiquidNoise liquidNoiseWitnessInput = some r ∧
      r.intermediate.Lpe ≠
        LiquidNoise.calculateExternalNoiseLevel r.intermediate.Lpi r.intermediate.TL := by
  rw [LiquidNoise.calculateLiquidNoise, if_neg liquidNoiseWitnessMFlow,
    if_neg (by rw [liquidNoiseWitnessCavState]; intro h; exact CavitationState.noConfusion h)]
  refine ⟨_, rfl, ?_⟩
  show LiquidNoise.lnLpe liquidNoiseWitnessInput ≠
    LiquidNoise.calculateExternalNoiseLevel (LiquidNoise.lnLpi liquidNoiseWitnessInput)
      (LiquidNoise.lnTL liquidNoiseWitnessInput)
  rw [LiquidNoise.lnLpe, LiquidNoise.calculateExternalNoiseLevel]
  intro heq
  have h1 := liquidNoiseWitnessTL_neg
  have h2 := liquidNoiseWitnessDC_pos
  linarith

/-- Flow classification of the C4 input: State I with exact boundary
pressures. -/
theorem c4Flow_eq : GasNoise.gnFlow c4Input =
    ⟨GasFlowState.StateI, 400, 400, 900000 / 88 / 1000, 900000 / 22 / 1000, 1⟩ := by
  simp only [GasNoise.gnFlow, GasNoise.determineGasFlowState]
  rw [show GasNoise.gnGamma c4Input = 2 from rfl, show (c4Input.P1 : ℝ) = 900 from rfl,
    show (c4Input.P2 : ℝ) = 400 from rfl, show (c4Input.FL : ℝ) = 1 from rfl]
  have hp1 : ((2:ℝ) / (2 + 1)) ^ ((2:ℝ) / (2 - 1)) = 4/9 := by
    rw [show (2:ℝ) / (2 - 1) = ((2:ℕ):ℝ) by norm_num, Real.rpow_natCast]
    norm_num
  have hp2 : ((1:ℝ) / 2) ^ ((2:ℝ) / (2 - 1)) = 1/4 := by
    rw [show (2:ℝ) / (2 - 1) = ((2:ℕ):ℝ) by norm_num, Real.rpow_natCast]
    norm_num
  rw [hp1, hp2]
  simp only [GasNoise.GasFlowInfo.mk.injEq]
  refine ⟨?_, by norm_num, by norm_num, by norm_num, by norm_num, by norm_num⟩
  split
  · rfl
  next h => exact absurd (by norm_num) h

/-- Vena contracta pressure of the C4 input. -/
theorem c4Pvc_eq : GasNoise.gnPvc c4Input = 400 := by
  simp only [GasNoise.gnPvc, GasNoise.calculateVenaContractaPressure, c4Flow_eq]
  rw [if_pos trivial, show (c4Input.P1 : ℝ) = 900 from rfl, show (c4Input.P2 : ℝ) = 400 from rfl,
    show (c4Input.FL : ℝ) = 1 from rfl]
  norm_num

/-- Inlet sound speed of the C4 input is exactly 400 m/s. -/
theorem c4C1_eq : GasNoise.gnC1 c4Input = 400 := by
  simp only [GasNoise.gnC1, GasNoise.calculateInletSoundSpeed]
  rw [show GasNoise.gnGamma c4Input = 2 from rfl,
    show GasNoise.gnM c4Input = 12471/400 from rfl, show (c4Input.T1 : ℝ) = 300 from rfl]
  rw [show (2:ℝ) * NOISE_CONSTANTS.R * 300 / (12471/400) = 400 ^ (2:ℕ) by
    norm_num [NOISE_CONSTANTS.R]]
  exact Real.sqrt_sq (by norm_num)

/-- Vena contracta Mach number of the C4 input is exactly 1. -/
theorem c4Mvc_eq : GasNoise.gnMvc c4Input = 1 := by
  simp only [GasNoise.gnMvc, GasNoise.calculateVenaContractaMach, c4Flow_eq]
  rw [if_pos trivial, c4Pvc_eq, show GasNoise.gnGamma c4Input = 2 from rfl,
    show (c4Input.P1 : ℝ) = 900 from rfl]
  have h94 : ((900:ℝ)/400) ^ (((2:ℝ) - 1)/2) = 3/2 := by
    rw [show (900:ℝ)/400 = ((3:ℝ)/2) ^ ((2:ℝ)) by
      rw [show (2:ℝ) = ((2:ℕ):ℝ) by norm_num, Real.rpow_natCast]; norm_num]
    rw [← Real.rpow_mul (by norm_num : (0:ℝ) ≤ 3/2)]
    rw [show (2:ℝ) * (((2:ℝ) - 1)/2) = 1 by norm_num, Real.rpow_one]
  rw [h94, show max (0:ℝ) (2 / (2 - 1) * (3/2 - 1)) = 1 by norm_num]
  exact Real.sqrt_one

/-- Vena contracta velocity of the C4 input. -/
theorem c4Uvc_eq : GasNoise.gnUvc c4Input = 400 * ((4:ℝ)/9) ^ ((1:ℝ)/4) := by
  simp only [GasNoise.gnUvc, GasNoise.calculateVenaContractaVelocity]
  rw [c4Mvc_eq, c4C1_eq, c4Pvc_eq, show GasNoise.gnGamma c4Input = 2 from rfl,
    show (c4Input.P1 : ℝ) = 900 from rfl]
  rw [show ((2:ℝ) - 1)/(2 * 2) = 1/4 by norm_num, show (400:ℝ)/900 = 4/9 by norm_num]
  ring

/-- Square of the C4 vena contracta velocity: the quarter powers combine
to `√(4/9) = 2/3`. -/
theorem c4UvcSq_eq : GasNoise.gnUvc c4Input * GasNoise.gnUvc c4Input = 320000/3 := by
  rw [c4Uvc_eq]
  have ht : ((4:ℝ)/9) ^ ((1:ℝ)/4) * ((4:ℝ)/9) ^ ((1:ℝ)/4) = 2/3 := by
    rw [← Real.rpow_add (by norm_num : (0:ℝ) < 4/9),
      show (1:ℝ)/4 + 1/4 = 1/2 by norm_num]
    rw [show (4:ℝ)/9 = ((2:ℝ)/3) ^ ((2:ℝ)) by
      rw [show (2:ℝ) = ((2:ℕ):ℝ) by norm_num, Real.rpow_natCast]; norm_num]
    rw [← Real.rpow_mul (by norm_num : (0:ℝ) ≤ 2/3)]
    rw [show (2:ℝ) * (1/2) = 1 by norm_num, Real.rpow_one]
  rw [show (400 * ((4:ℝ)/9) ^ ((1:ℝ)/4)) * (400 * ((4:ℝ)/9) ^ ((1:ℝ)/4))
      = 160000 * (((4:ℝ)/9) ^ ((1:ℝ)/4) * ((4:ℝ)/9) ^ ((1:ℝ)/4)) by ring, ht]
  norm_num

/-- Mechanical power of the C4 input. -/
theorem c4Wm_eq : GasNoise.gnWm c4Input = 160000/3 := by
  simp only [GasNoise.gnWm, c4Flow_eq]
  rw [if_pos trivial]
  simp only [GasNoise.calculateMechanicalPower]
  rw [show (c4Input.massFlow : ℝ) = 3600 from rfl]
  rw [show (3600:ℝ)/3600 * GasNoise.gnUvc c4Input * GasNoise.gnUvc c4Input / 2
      = (GasNoise.gnUvc c4Input * GasNoise.gnUvc c4Input) / 2 by ring, c4UvcSq_eq]
  norm_num

/-- Acoustic efficiency of the C4 input takes the State I branch with
Mach 1 and is not capped. -/
theorem c4Eta_eq : GasNoise.gnEta c4Input = 1e-4 := by
  simp only [GasNoise.gnEta, GasNoise.calculateAcousticEfficiency, c4Flow_eq, c4Mvc_eq]
  rw [max_eq_right (by norm_num [NOISE_CONSTANTS.MVC_MIN] : NOISE_CONSTANTS.MVC_MIN ≤ (1:ℝ)),
    Real.one_rpow, mul_one]
  exact min_eq_left (by norm_num [NOISE_CONSTANTS.ETA_MAX])

/-- Outlet density of the C4 input. -/
theorem c4Rho2_eq : GasNoise.gnRho2 c4Input = 4 := by
  simp only [GasNoise.gnRho2, GasNoise.calculateOutletDensity]
  rw [show (c4Input.density : ℝ) = 9 from rfl, show (c4Input.P2 : ℝ) = 400 from rfl,
    show (c4Input.P1 : ℝ) = 900 from rfl]
  norm_num

/-- Sound power of the C4 input. -/
theorem c4Wa_eq : GasNoise.gnWa c4Input = 4/3 := by
  simp only [GasNoise.gnWa, c4Flow_eq]
  rw [if_pos trivial, c4Eta_eq, c4Wm_eq, show (c4Input.FL : ℝ) = 1 from rfl]
  norm_num

/-- Jet diameter of the C4 input. -/
theorem c4Dj_eq : GasNoise.gnDj c4Input = 49/1000000 := by
  norm_num [GasNoise.gnDj, jsOrR, jsOr, NOISE_CONSTANTS.N14, c4Input, Real.sqrt_one]

/-- The raw peak frequency of the C4 input exceeds the 10 kHz cap. -/
theorem c4FpRaw_ge : (10000:ℝ) ≤ GasNoise.gnFpRaw c4Input := by
  simp only [GasNoise.gnFpRaw, c4Flow_eq]
  rw [if_pos trivial, c4Uvc_eq, c4Dj_eq]
  have ht : (1:ℝ)/2 ≤ ((4:ℝ)/9) ^ ((1:ℝ)/4) := by
    have h16 : ((1:ℝ)/16) ^ ((1:ℝ)/4) = 1/2 := by
      rw [show (1:ℝ)/16 = ((1:ℝ)/2) ^ ((4:ℝ)) by
        rw [show (4:ℝ) = ((4:ℕ):ℝ) by norm_num, Real.rpow_natCast]; norm_num]
      rw [← Real.rpow_mul (by norm_num : (0:ℝ) ≤ 1/2)]
      rw [show (4:ℝ) * (1/4) = 1 by norm_num, Real.rpow_one]
    calc (1:ℝ)/2 = ((1:ℝ)/16) ^ ((1:ℝ)/4) := h16.symm
    _ ≤ ((4:ℝ)/9) ^ ((1:ℝ)/4) :=
        Real.rpow_le_rpow (by norm_num) (by norm_num) (by norm_num)
  nlinarith [ht]

/-- Peak frequency of the C4 input clamps to exactly 10 kHz. -/
theorem c4Fp_eq : GasNoise.gnFp c4Input = 10000 := by
  simp only [GasNoise.gnFp]
  rw [min_eq_left c4FpRaw_ge]
  exact max_eq_right (by norm_num)

/-- A-weighting correction of the C4 input: the cubic at
`log10 10000 = 4` is exactly −2.224 dB. -/
theorem c4DeltaLA_eq : GasNoise.gnDeltaLA c4Input = -(2224/1000) := by
  simp only [GasNoise.gnDeltaLA, c4Fp_eq, calculateAWeighting]
  rw [if_neg (by norm_num : ¬ ((10000:ℝ) ≤ 0))]
  have hlog : log10 (10000:ℝ) = 4 := by
    rw [log10, show (10000:ℝ) = 10 ^ (4:ℕ) by norm_num, Real.logb_pow,
      Real.logb_self_eq_one (by norm_num : (1:ℝ) < 10)]
    norm_num
  rw [hlog]
  norm_num [NOISE_CONSTANTS.A_WEIGHTING_A1, NOISE_CONSTANTS.A_WEIGHTING_A2,
    NOISE_CONSTANTS.A_WEIGHTING_A3, NOISE_CONSTANTS.A_WEIGHTING_A4]

/-- Outlet sound speed of the C4 input (isothermal: equal to `c1`). -/
theorem c4C2_eq : GasNoise.gnC2 c4Input = 400 := c4C1_eq

/-- Internal sound pressure level of the C4 input lies strictly between
140 and 150 dB. -/
theorem c4Lpi_bounds : 140 < GasNoise.gnLpi c4Input ∧ GasNoise.gnLpi c4Input < 150 := by
  simp only [GasNoise.gnLpi, GasNoise.calculateInternalNoiseLevel, c4Wa_eq, c4Rho2_eq, c4C2_eq]
  rw [if_neg (by norm_num : ¬ ((4:ℝ)/3 ≤ 0)), show (c4Input.Di : ℝ) = 100 from rfl]
  have hlo : (10:ℝ)^(14:ℤ) <
      NOISE_CONSTANTS.INTERNAL_NOISE_COEF * (4 / 3) * 4 * 400 / (100 / 1000 * (100 / 1000)) := by
    norm_num [NOISE_CONSTANTS.INTERNAL_NOISE_COEF]
  have hhi : NOISE_CONSTANTS.INTERNAL_NOISE_COEF * (4 / 3) * 4 * 400 / (100 / 1000 * (100 / 1000))
      < (10:ℝ)^(15:ℤ) := by
    norm_num [NOISE_CONSTANTS.INTERNAL_NOISE_COEF]
  have h1 := int_lt_log10 14 hlo
  have h2 := log10_lt_int 15 (by norm_num [NOISE_CONSTANTS.INTERNAL_NOISE_COEF]) hhi
  constructor
  · push_cast at h1; linarith
  · push_cast at h2; linarith

/-- Transmission loss of the C4 input lies strictly between −80 and
−70 dB. -/
theorem c4TL_bounds : -80 < GasNoise.gnTL c4Input ∧ GasNoise.gnTL c4Input < -70 := by
  simp only [GasNoise.gnTL, GasNoise.calculateTransmissionLoss, c4Fp_eq, c4Rho2_eq, c4C2_eq,
    NOISE_CONSTANTS.CP_PIPE, NOISE_CONSTANTS.C0, NOISE_CONSTANTS.TL_COEF_GAS]
  rw [show (c4Input.tp : ℝ) = 5 from rfl, show (c4Input.Di : ℝ) = 100 from rfl]
  have hπ : (3:ℝ) < Real.pi := Real.pi_gt_three
  have hf0 : 5000 / (Real.pi * (100 / 1000)) / 4 * (400 / 343) < 10000 := by
    rw [div_div, div_mul_eq_mul_div, div_lt_iff (by positivity)]
    nlinarith
  have hs3 : Real.sqrt 3 < 2 := by
    nlinarith [Real.sq_sqrt (show (0:ℝ) ≤ 3 by norm_num), Real.sqrt_nonneg 3]
  have hfg : 343 ^ 2 * Real.sqrt 3 / (5000 * Real.pi * (5 / 1000)) < 10000 := by
    rw [div_lt_iff (by positivity)]
    nlinarith [hs3, Real.sqrt_nonneg 3]
  split
  next h => exact absurd h.1 (not_lt.mpr hf0.le)
  next =>
    split
    next h => exact absurd h.1 (not_lt.mpr hf0.le)
    next =>
      split
      next h => exact absurd h.2 (not_lt.mpr hfg.le)
      next =>
        have hlo : (10:ℝ)^(-8:ℤ) <
            76e-8 * (400 / (5 / 1000 * 10000)) ^ 2 * 19e-4 / (4 * 400 / (415 * 1) + 1) := by
          norm_num
        have hhi : 76e-8 * (400 / (5 / 1000 * 10000)) ^ 2 * 19e-4 / (4 * 400 / (415 * 1) + 1)
            < (10:ℝ)^(-7:ℤ) := by norm_num
        have h1 := int_lt_log10 (-8) hlo
        have h2 := log10_lt_int (-7) (by positivity) hhi
        constructor
        · push_cast at h1; linarith
        · push_cast at h2; linarith

/-- Pipe Mach number of the C4 input is positive and below 1/12. -/
theorem c4M2_bounds : 0 < GasNoise.gnM2 c4Input ∧ GasNoise.gnM2 c4Input < 1/12 := by
  simp only [GasNoise.gnM2, c4Rho2_eq, c4C2_eq]
  rw [show (c4Input.massFlow : ℝ) = 3600 from rfl, show (c4Input.Di : ℝ) = 100 from rfl]
  constructor
  · exact lt_min (by positivity) (by norm_num)
  · refine lt_of_le_of_lt (min_le_left _ _) ?_
    rw [div_lt_iff (by positivity)]
    nlinarith [Real.pi_gt_three]

/-- Mach-number correction of the C4 input lies strictly between 0
and 2 dB. -/
theorem c4Lg_bounds : 0 < GasNoise.gnLg c4Input ∧ GasNoise.gnLg c4Input < 2 := by
  obtain ⟨hpos, hlt⟩ := c4M2_bounds
  simp only [GasNoise.gnLg]
  rw [if_pos hpos]
  have h1m : (11:ℝ)/12 < 1 - GasNoise.gnM2 c4Input := by linarith
  have hy_gt : 1 < 1/(1 - GasNoise.gnM2 c4Input) := by
    rw [lt_div_iff (by linarith)]; linarith
  have hy_lt : 1/(1 - GasNoise.gnM2 c4Input) < 12/11 := by
    rw [div_lt_iff (by linarith)]; linarith
  constructor
  · have := log10_pos hy_gt; linarith
  · have h8 : (1/(1 - GasNoise.gnM2 c4Input))^(8:ℕ) < 10 := by
      calc (1/(1 - GasNoise.gnM2 c4Input))^(8:ℕ) < ((12:ℝ)/11)^(8:ℕ) :=
        pow_lt_pow_left hy_lt (by positivity) (by norm_num)
      _ < 10 := by norm_num
    have := log10_lt_eighth (by positivity) h8
    linarith

/-- The 1 m distance correction of the C4 input lies strictly between 0
and 1.25 dB. -/
theorem c4DistCorr_bounds :
    0 < GasNoise.gnDistCorr c4Input ∧ GasNoise.gnDistCorr c4Input < 5/4 := by
  simp only [GasNoise.gnDistCorr]
  rw [show (c4Input.Di : ℝ) = 100 from rfl, show (c4Input.tp : ℝ) = 5 from rfl]
  rw [show (100/1000 + 2*(5/1000) + 0.002)/(100/1000 + 2*(5/1000)) = (56:ℝ)/55 by norm_num]
  constructor
  · have := log10_pos (show (1:ℝ) < 56/55 by norm_num); linarith
  · have h8 : ((56:ℝ)/55)^(8:ℕ) < 10 := by norm_num
    have := log10_lt_eighth (by norm_num) h8
    linarith

/-- C4: for every gas/steam noise input the final level is the clamped,
0.1 dB-rounded combination `5 + Lpi + TL + Lg − (distance correction)`
of the internal sound pressure level `Lpi`, the transmission loss `TL`,
the Mach-number correction `Lg`, the fixed +5 dB geometric term and the
1 m distance correction; the A-weighting correction `deltaLA` is
computed from the (clamped) peak frequency and reported among the
intermediates, but it is never added into `noiseLevel`. -/
theorem gas_noise_level_amended (i : NoiseInput) :
    (GasNoise.calculateGasNoise i).noiseLevel =
      jsRound (max NOISE_CONSTANTS.MIN_NOISE (min NOISE_CONSTANTS.MAX_NOISE
        (5 + GasNoise.gnLpi i + GasNoise.gnTL i + GasNoise.gnLg i - GasNoise.gnDistCorr i))
        * 10) / 10 ∧
    (GasNoise.calculateGasNoise i).intermediate.deltaLA =
      calculateAWeighting ((GasNoise.calculateGasNoise i).intermediate.fp) :=
  ⟨rfl, rfl⟩

/-- C4, counterexample: at the concrete gas input `c4Input` the level
returned by `calculateGasNoise` differs from the level the specification
describes (A-weighting added before clamping and rounding): the
A-weighting correction at the 10 kHz peak frequency is −2.224 dB, which
survives the 0.1 dB rounding. -/
theorem gas_noise_aweighting_counterexample :
    (GasNoise.calculateGasNoise c4Input).noiseLevel ≠ gasNoiseLevelWithAWeighting c4Input := by
  obtain ⟨hLpi_lo, hLpi_hi⟩ := c4Lpi_bounds
  obtain ⟨hTL_lo, hTL_hi⟩ := c4TL_bounds
  obtain ⟨hLg_lo, hLg_hi⟩ := c4Lg_bounds
  obtain ⟨hDC_lo, hDC_hi⟩ := c4DistCorr_bounds
  have hLpe_lo : (63:ℝ) < GasNoise.gnLpe c4Input := by
    simp only [GasNoise.gnLpe, GasNoise.gnLpae]; linarith
  have hLpe_hi : GasNoise.gnLpe c4Input < 88 := by
    simp only [GasNoise.gnLpe, GasNoise.gnLpae]; linarith
  have hdla := c4DeltaLA_eq
  have hclamp1 : GasNoise.gnClamped c4Input = GasNoise.gnLpe c4Input := by
    simp only [GasNoise.gnClamped]
    rw [min_eq_right (show GasNoise.gnLpe c4Input ≤ NOISE_CONSTANTS.MAX_NOISE from by
      show GasNoise.gnLpe c4Input ≤ (150:ℝ); linarith)]
    exact max_eq_right (show NOISE_CONSTANTS.MIN_NOISE ≤ GasNoise.gnLpe c4Input from by
      show (30:ℝ) ≤ GasNoise.gnLpe c4Input; linarith)
  have hclamp2 : max NOISE_CONSTANTS.MIN_NOISE (min NOISE_CONSTANTS.MAX_NOISE
      (GasNoise.gnLpe c4Input + GasNoise.gnDeltaLA c4Input)) =
      GasNoise.gnLpe c4Input + GasNoise.gnDeltaLA c4Input := by
    rw [min_eq_right (show GasNoise.gnLpe c4Input + GasNoise.gnDeltaLA c4Input
        ≤ NOISE_CONSTANTS.MAX_NOISE from by
      show _ ≤ (150:ℝ); rw [hdla]; linarith)]
    exact max_eq_right (show NOISE_CONSTANTS.MIN_NOISE
        ≤ GasNoise.gnLpe c4Input + GasNoise.gnDeltaLA c4Input from by
      show (30:ℝ) ≤ _; rw [hdla]; linarith)
  show jsRound (GasNoise.gnClamped c4Input * 10) / 10 ≠
    jsRound (max NOISE_CONSTANTS.MIN_NOISE (min NOISE_CONSTANTS.MAX_NOISE
      (GasNoise.gnLpe c4Input + GasNoise.gnDeltaLA c4Input)) * 10) / 10
  rw [hclamp1, hclamp2, hdla]
  have h2 : round (GasNoise.gnLpe c4Input * 10 - ((22:ℤ):ℝ)) =
      round (GasNoise.gnLpe c4Input * 10) - 22 := round_sub_int _ _
  have h1 : round ((GasNoise.gnLpe c4Input + -(2224/1000)) * 10) ≤
      round (GasNoise.gnLpe c4Input * 10 - ((22:ℤ):ℝ)) := by
    apply round_le_round_of_le
    push_cast
    linarith
  rw [h2] at h1
  have h3 : round ((GasNoise.gnLpe c4Input + -(2224/1000)) * 10) <
      round (GasNoise.gnLpe c4Input * 10) := by omega
  simp only [jsRound]
  have h4 : ((round ((GasNoise.gnLpe c4Input + -(2224/1000)) * 10) : ℤ) : ℝ) <
      ((round (GasNoise.gnLpe c4Input * 10) : ℤ) : ℝ) := by exact_mod_cast h3
  exact ne_of_gt (div_lt_div_of_pos_right h4 (by norm_num))

end












